import Mathlib

/-!
Shallow embedding of the DSC PC1550 keypad-emulator protocol engine
(src/PC1550.h, src/PC1550.cpp) and proofs about its specification.

Modelling conventions:
* `uint8_t` / `uint16_t` fields are `Nat` with explicit `% 256` / `% 65536`
  where the C code can overflow or truncate.
* The target platform is AVR Arduino, where `int` is 16 bits wide, so a
  promoted `uint16_t` expression such as `available_controller_data << 1 >> 15`
  truncates modulo 2^16 before the right shift; the accessors below encode
  that 16-bit promotion explicitly.
* `micros()` is modelled by the caller-supplied timestamps `now` (the read at
  entry of `processClockCycle`) and `now2` (the read stored into `last_read`
  on a rising edge).  The 32-bit wraparound subtraction `micros() - last_read`
  is `elapsedMicros`.
* The data pin's mode (`pinMode(datapin, INPUT/OUTPUT)`) is the state field
  `dataPinOutput`; `true` means the pin is an actively-driven-low output.
  The C sequence `pinMode(INPUT); if (bit) pinMode(OUTPUT);` is embedded as
  assigning `false` and then, in transmit mode, assigning the tested bit.
* The double sampling of the data line in the falling-edge branch (a throwaway
  read, a 100 microsecond settling delay, then the real read) is modelled by
  the input field `data2`, the value of the second (post-delay) read; the
  settling delay itself has no observable effect on the engine state.
-/

/-- One PC1550 engine instance: every mutable field of the C++ class. -/
structure PC1550 where
  synchronized : Bool
  controller_bits_read : Nat
  controller_data : Nat
  available_controller_data : Nat
  bStateChanged : Bool
  keypad_bits_read : Nat
  keypad_data : Nat
  available_keypad_data : Nat
  pc16out_data : Nat
  available_pc16out_data : Nat
  key_released_data : Nat
  bKeyPressed : Bool
  iConsecutiveKeyPressCycles : Nat
  last_read : Nat
  last_clock : Bool
  cyclesWithoutKey : Nat
  transmitting : Bool
  keyHoldCycles : Nat
  key_to_send : Nat
  keypad_bits_sent : Nat
  iConsecutiveBeeps : Nat
  bTransmissionEnd : Bool
  dataPinOutput : Bool
deriving DecidableEq, Repr

/-- The samples a single call of `processClockCycle` obtains from the
outside world: the three line reads at entry, the second (post-settling)
data read of the falling-edge branch, and the two `micros()` readings. -/
structure ClockInputs where
  clock : Bool
  data : Bool
  pgmData : Bool
  data2 : Bool
  now : Nat
  now2 : Nat
deriving DecidableEq, Repr

/-- Translate a physical key code to its ASCII symbol (PC1550.cpp:153). -/
def PC1550.getKeyChar (value : Nat) : Char :=
  if value = 0b01000001 then '1'
  else if value = 0b00100001 then '2'
  else if value = 0b00010001 then '3'
  else if value = 0b01000010 then '4'
  else if value = 0b00100010 then '5'
  else if value = 0b00010010 then '6'
  else if value = 0b01000100 then '7'
  else if value = 0b00100100 then '8'
  else if value = 0b00010100 then '9'
  else if value = 0b01001000 then '*'
  else if value = 0b00101000 then '0'
  else if value = 0b00011000 then '#'
  else if value = 0b01000000 then 'F'
  else if value = 0b00100000 then 'A'
  else if value = 0b00010000 then 'P'
  else Char.ofNat 0

/-- Translate an ASCII key symbol to its physical code (PC1550.cpp:175). -/
def PC1550.getKeyValue (key : Char) : Nat :=
  if key = '1' then 0b01000001
  else if key = '2' then 0b00100001
  else if key = '3' then 0b00010001
  else if key = '4' then 0b01000010
  else if key = '5' then 0b00100010
  else if key = '6' then 0b00010010
  else if key = '7' then 0b01000100
  else if key = '8' then 0b00100100
  else if key = '9' then 0b00010100
  else if key = '*' then 0b01001000
  else if key = '0' then 0b00101000
  else if key = '#' then 0b00011000
  else if key = 'F' then 0b01000000
  else if key = 'A' then 0b00100000
  else if key = 'P' then 0b00010000
  else 0

/-- Status accessors (PC1550.cpp:216-262).  On AVR the `uint16_t` operand
promotes to a 16-bit unsigned int, so a left shift truncates modulo 2^16. -/
def PC1550.Zone1Light (s : PC1550) : Bool :=
  decide (s.available_controller_data >>> 15 ≠ 0)

def PC1550.Zone2Light (s : PC1550) : Bool :=
  decide (((s.available_controller_data <<< 1) % 65536) >>> 15 ≠ 0)

def PC1550.Zone3Light (s : PC1550) : Bool :=
  decide (((s.available_controller_data <<< 2) % 65536) >>> 15 ≠ 0)

def PC1550.Zone4Light (s : PC1550) : Bool :=
  decide (((s.available_controller_data <<< 3) % 65536) >>> 15 ≠ 0)

def PC1550.Zone5Light (s : PC1550) : Bool :=
  decide (((s.available_controller_data <<< 4) % 65536) >>> 15 ≠ 0)

def PC1550.Zone6Light (s : PC1550) : Bool :=
  decide (((s.available_controller_data <<< 5) % 65536) >>> 15 ≠ 0)

def PC1550.ReadyLight (s : PC1550) : Bool :=
  decide (((s.available_controller_data <<< 8) % 65536) >>> 15 ≠ 0)

def PC1550.ArmedLight (s : PC1550) : Bool :=
  decide (((s.available_controller_data <<< 9) % 65536) >>> 15 ≠ 0)

def PC1550.MemoryLight (s : PC1550) : Bool :=
  decide (((s.available_controller_data <<< 10) % 65536) >>> 15 ≠ 0)

def PC1550.BypassLight (s : PC1550) : Bool :=
  decide (((s.available_controller_data <<< 11) % 65536) >>> 15 ≠ 0)

def PC1550.TroubleLight (s : PC1550) : Bool :=
  decide (((s.available_controller_data <<< 12) % 65536) >>> 15 ≠ 0)

def PC1550.Beep (s : PC1550) : Bool :=
  decide (((s.available_controller_data <<< 15) % 65536) >>> 15 ≠ 0)

/-- Pressed-key query (PC1550.cpp:204). -/
def PC1550.keyPressed (s : PC1550) : Char :=
  if ¬ s.bKeyPressed then Char.ofNat 0
  else PC1550.getKeyChar s.available_keypad_data

/-- Released-key query (PC1550.cpp:210). -/
def PC1550.keyReleased (s : PC1550) : Char :=
  if s.key_released_data = 0 then Char.ofNat 0
  else PC1550.getKeyChar s.key_released_data

/-- Ready predicate for an outgoing key request (PC1550.cpp:276). -/
def PC1550.readyForKeyPress (s : PC1550) : Bool :=
  if s.keyHoldCycles > 0 ∨ s.cyclesWithoutKey < 1 then false else true

/-- Request transmission of key `c` for `holdCycles` cycles (PC1550.cpp:283).
The `holdCycles` parameter is a `uint8_t`, hence the `% 256`. -/
def PC1550.sendKey (s : PC1550) (c : Char) (holdCycles : Nat) : PC1550 × Bool :=
  if ¬ s.readyForKeyPress then (s, false)
  else
    let keyval := PC1550.getKeyValue c
    if keyval = 0 then (s, false)
    else ({ s with key_to_send := keyval, keyHoldCycles := holdCycles % 256 }, true)

/-- State set up by the constructor (PC1550.cpp:375); `t0` is the `micros()`
value read at construction time. -/
def PC1550.initState (t0 : Nat) : PC1550 where
  synchronized := false
  controller_bits_read := 0
  controller_data := 0
  available_controller_data := 0
  bStateChanged := false
  keypad_bits_read := 0
  keypad_data := 0
  available_keypad_data := 0
  pc16out_data := 0
  available_pc16out_data := 0
  key_released_data := 0
  bKeyPressed := false
  iConsecutiveKeyPressCycles := 0
  last_read := t0
  last_clock := true
  cyclesWithoutKey := 0
  transmitting := false
  keyHoldCycles := 0
  key_to_send := 0
  keypad_bits_sent := 0
  iConsecutiveBeeps := 0
  bTransmissionEnd := false
  dataPinOutput := false

/-- Wraparound-tolerant 32-bit time difference `micros() - last_read`. -/
def elapsedMicros (now last : Nat) : Nat :=
  (now + 2 ^ 32 - last) % 2 ^ 32

/-- Resynchronization test (PC1550.cpp:446-458): if the clock variable reads
false (line idle) and the idle gap is strictly inside the 25-28 ms band,
declare synchronization and reset the frame accumulators. -/
def PC1550.resyncStep (s : PC1550) (i : ClockInputs) : PC1550 :=
  if i.clock = false ∧ 25000 < elapsedMicros i.now s.last_read ∧
      elapsedMicros i.now s.last_read < 28000 then
    { s with synchronized := true
             controller_bits_read := 0
             controller_data := 0
             pc16out_data := 0
             keypad_bits_read := 0
             keypad_data := 0
             keypad_bits_sent := 0 }
  else s

/-- Falling-edge branch (PC1550.cpp:462-488): between the first eight
controller bits, double-sample the data line and accumulate the inverted
second sample into the keypad accumulator.  The C expression
`6 - keypad_bits_read` is modelled with truncated subtraction; the source
only reaches it with `keypad_bits_read` at most 6. -/
def PC1550.fallingEdgeStep (s : PC1550) (i : ClockInputs) : PC1550 :=
  if i.clock = false ∧ s.last_clock ≠ i.clock then
    if 0 < s.controller_bits_read ∧ s.controller_bits_read < 8 then
      let bitValue : Nat := if i.data2 then 0 else 1
      { s with keypad_data :=
                 (s.keypad_data ||| (bitValue <<< (6 - s.keypad_bits_read))) % 256
               keypad_bits_read := (s.keypad_bits_read + 1) % 256 }
    else s
  else s

/-- Rising-edge bit storage (PC1550.cpp:494-506): update `last_read`, store
the sampled controller and PC16OUT bits MSB-first, advance the frame
position.  The C expression `15 - controller_bits_read` is modelled with
truncated subtraction. -/
def PC1550.storeBitsPhase (s : PC1550) (i : ClockInputs) : PC1550 :=
  let s1 := { s with last_read := i.now2 }
  let dataValue :=
    (((if i.data then 1 else 0) : Nat) <<< (15 - s1.controller_bits_read)) % 65536
  let s2 := { s1 with controller_data := s1.controller_data ||| dataValue }
  let pgmValue :=
    (((if i.pgmData then 1 else 0) : Nat) <<< (15 - s2.controller_bits_read)) % 65536
  let s3 := { s2 with pc16out_data := s2.pc16out_data ||| pgmValue }
  { s3 with controller_bits_read := (s3.controller_bits_read + 1) % 256 }

/-- First-bit key decision (PC1550.cpp:509-516): on the first bit of a
synchronized frame, enter transmit mode if a key is pending, otherwise
count a cycle without a key. -/
def PC1550.keyArmPhase (s : PC1550) : PC1550 :=
  if s.synchronized = true ∧ s.controller_bits_read = 1 then
    if s.key_to_send ≠ 0 then
      { s with cyclesWithoutKey := 0, transmitting := true }
    else
      { s with cyclesWithoutKey := (s.cyclesWithoutKey + 1) % 256 }
  else s

/-- Transmit-mode sanity check (PC1550.cpp:519-520). -/
def PC1550.sanityPhase (s : PC1550) : PC1550 :=
  if s.controller_bits_read ≥ 8 then { s with transmitting := false } else s

/-- Hold-cycle bookkeeping after the 7th transmitted bit (PC1550.cpp:540-545). -/
def PC1550.holdCountPhase (s : PC1550) : PC1550 :=
  if s.controller_bits_read = 7 then
    let s1 := if s.keyHoldCycles > 0 then
                { s with keyHoldCycles := s.keyHoldCycles - 1 }
              else s
    if s1.keyHoldCycles = 0 then { s1 with key_to_send := 0 } else s1
  else s

/-- Data-pin control for this slot (PC1550.cpp:527-547): float the pin, then
if transmitting drive it low exactly when the current key bit is set, and
run the hold-cycle bookkeeping on the 7th bit. -/
def PC1550.transmitPhase (s : PC1550) : PC1550 :=
  let s1 := { s with dataPinOutput := false }
  if s1.transmitting = true then
    let bitSet := decide ((s1.key_to_send >>> (7 - s1.controller_bits_read)) &&& 1 = 1)
    PC1550.holdCountPhase { s1 with dataPinOutput := bitSet }
  else s1

/-- Rising-edge branch (PC1550.cpp:492-548), composed from its phases in
source order. -/
def PC1550.risingEdgeStep (s : PC1550) (i : ClockInputs) : PC1550 :=
  if i.clock = true ∧ s.last_clock ≠ i.clock then
    (((s.storeBitsPhase i).keyArmPhase).sanityPhase).transmitPhase
  else s

/-- Keypad-transition classification at frame completion (PC1550.cpp:557-591):
compare the freshly read keypad data against the previous snapshot. -/
def PC1550.classifyKeypadPhase (s : PC1550) : PC1550 :=
  if s.keypad_data ≠ 0 then
    if s.available_keypad_data = s.keypad_data then
      { s with bKeyPressed := false
               key_released_data := 0
               iConsecutiveKeyPressCycles :=
                 (s.iConsecutiveKeyPressCycles + 1) % 256 }
    else if s.available_keypad_data = 0 then
      { s with bKeyPressed := true
               key_released_data := 0
               iConsecutiveKeyPressCycles := 1 }
    else
      { s with bKeyPressed := true
               iConsecutiveKeyPressCycles := 1
               key_released_data := s.available_keypad_data }
  else
    if s.available_keypad_data ≠ 0 then
      { s with bKeyPressed := false
               key_released_data := s.available_keypad_data }
    else
      { s with key_released_data := 0
               bKeyPressed := false
               iConsecutiveKeyPressCycles := 0 }

/-- Snapshot publication at frame completion (PC1550.cpp:593-595). -/
def PC1550.snapshotPhase (s : PC1550) : PC1550 :=
  { s with available_keypad_data := s.keypad_data
           available_controller_data := s.controller_data
           available_pc16out_data := s.pc16out_data }

/-- Beep cadence update at frame completion (PC1550.cpp:598-599); `Beep`
reads the freshly published status snapshot. -/
def PC1550.beepPhase (s : PC1550) : PC1550 :=
  if s.Beep = false then { s with iConsecutiveBeeps := 0 }
  else { s with iConsecutiveBeeps := s.iConsecutiveBeeps + 1 }

/-- Frame-completion block (PC1550.cpp:551-608): snapshot the accumulators,
classify the keypad transition, update the beep cadence counter, raise the
frame-complete flag and unconditionally drop synchronization. -/
def PC1550.frameCompleteStep (s : PC1550) : PC1550 :=
  if s.synchronized = true ∧ s.controller_bits_read = 16 then
    let s1 := { s with bStateChanged :=
                 decide (s.available_controller_data ≠ s.controller_data) }
    let s2 := ((s1.classifyKeypadPhase).snapshotPhase).beepPhase
    { s2 with bTransmissionEnd := true
              synchronized := false
              controller_bits_read := 0 }
  else s

/-- The state reached just before the frame-completion check of a call of
`processClockCycle`: flag clearing, resynchronization test, falling-edge
branch and rising-edge branch, in source order. -/
def PC1550.preComplete (s : PC1550) (i : ClockInputs) : PC1550 :=
  (({ s with bTransmissionEnd := false }.resyncStep i).fallingEdgeStep i).risingEdgeStep i

/-- One poll of the protocol engine (PC1550.cpp:429-611). -/
def PC1550.processClockCycle (s : PC1550) (i : ClockInputs) : PC1550 :=
  { (s.preComplete i).frameCompleteStep with last_clock := i.clock }

/-! Field-preservation lemmas for the individual phases.  Each states that a
phase leaves a given engine field untouched; they let the claim proofs push
field projections through the branching phases. -/

theorem PC1550.resync_cwk (s : PC1550) (i : ClockInputs) :
    (s.resyncStep i).cyclesWithoutKey = s.cyclesWithoutKey := by
  unfold PC1550.resyncStep; split_ifs <;> rfl

theorem PC1550.resync_bTE (s : PC1550) (i : ClockInputs) :
    (s.resyncStep i).bTransmissionEnd = s.bTransmissionEnd := by
  unfold PC1550.resyncStep; split_ifs <;> rfl

theorem PC1550.falling_sync (s : PC1550) (i : ClockInputs) :
    (s.fallingEdgeStep i).synchronized = s.synchronized := by
  unfold PC1550.fallingEdgeStep; (try dsimp only); split_ifs <;> rfl

theorem PC1550.falling_cbr (s : PC1550) (i : ClockInputs) :
    (s.fallingEdgeStep i).controller_bits_read = s.controller_bits_read := by
  unfold PC1550.fallingEdgeStep; (try dsimp only); split_ifs <;> rfl

theorem PC1550.falling_cwk (s : PC1550) (i : ClockInputs) :
    (s.fallingEdgeStep i).cyclesWithoutKey = s.cyclesWithoutKey := by
  unfold PC1550.fallingEdgeStep; (try dsimp only); split_ifs <;> rfl

theorem PC1550.falling_bTE (s : PC1550) (i : ClockInputs) :
    (s.fallingEdgeStep i).bTransmissionEnd = s.bTransmissionEnd := by
  unfold PC1550.fallingEdgeStep; (try dsimp only); split_ifs <;> rfl

theorem PC1550.keyArm_sync (s : PC1550) :
    s.keyArmPhase.synchronized = s.synchronized := by
  unfold PC1550.keyArmPhase; split_ifs <;> rfl

theorem PC1550.keyArm_cbr (s : PC1550) :
    s.keyArmPhase.controller_bits_read = s.controller_bits_read := by
  unfold PC1550.keyArmPhase; split_ifs <;> rfl

theorem PC1550.keyArm_bTE (s : PC1550) :
    s.keyArmPhase.bTransmissionEnd = s.bTransmissionEnd := by
  unfold PC1550.keyArmPhase; split_ifs <;> rfl

theorem PC1550.keyArm_key (s : PC1550) :
    s.keyArmPhase.key_to_send = s.key_to_send := by
  unfold PC1550.keyArmPhase; split_ifs <;> rfl

theorem PC1550.sanity_sync (s : PC1550) :
    s.sanityPhase.synchronized = s.synchronized := by
  unfold PC1550.sanityPhase; split_ifs <;> rfl

theorem PC1550.sanity_cbr (s : PC1550) :
    s.sanityPhase.controller_bits_read = s.controller_bits_read := by
  unfold PC1550.sanityPhase; split_ifs <;> rfl

theorem PC1550.sanity_cwk (s : PC1550) :
    s.sanityPhase.cyclesWithoutKey = s.cyclesWithoutKey := by
  unfold PC1550.sanityPhase; split_ifs <;> rfl

theorem PC1550.sanity_bTE (s : PC1550) :
    s.sanityPhase.bTransmissionEnd = s.bTransmissionEnd := by
  unfold PC1550.sanityPhase; split_ifs <;> rfl

theorem PC1550.sanity_key (s : PC1550) :
    s.sanityPhase.key_to_send = s.key_to_send := by
  unfold PC1550.sanityPhase; split_ifs <;> rfl

theorem PC1550.holdCount_sync (s : PC1550) :
    s.holdCountPhase.synchronized = s.synchronized := by
  unfold PC1550.holdCountPhase; (try dsimp only); split_ifs <;> rfl

theorem PC1550.holdCount_cbr (s : PC1550) :
    s.holdCountPhase.controller_bits_read = s.controller_bits_read := by
  unfold PC1550.holdCountPhase; (try dsimp only); split_ifs <;> rfl

theorem PC1550.holdCount_cwk (s : PC1550) :
    s.holdCountPhase.cyclesWithoutKey = s.cyclesWithoutKey := by
  unfold PC1550.holdCountPhase; (try dsimp only); split_ifs <;> rfl

theorem PC1550.holdCount_bTE (s : PC1550) :
    s.holdCountPhase.bTransmissionEnd = s.bTransmissionEnd := by
  unfold PC1550.holdCountPhase; (try dsimp only); split_ifs <;> rfl

theorem PC1550.holdCount_pin (s : PC1550) :
    s.holdCountPhase.dataPinOutput = s.dataPinOutput := by
  unfold PC1550.holdCountPhase; (try dsimp only); split_ifs <;> rfl

theorem PC1550.holdCount_transmitting (s : PC1550) :
    s.holdCountPhase.transmitting = s.transmitting := by
  unfold PC1550.holdCountPhase; (try dsimp only); split_ifs <;> rfl

theorem PC1550.transmit_sync (s : PC1550) :
    s.transmitPhase.synchronized = s.synchronized := by
  unfold PC1550.transmitPhase; (try dsimp only); split_ifs
  · rw [PC1550.holdCount_sync]
  · rfl

theorem PC1550.transmit_cbr (s : PC1550) :
    s.transmitPhase.controller_bits_read = s.controller_bits_read := by
  unfold PC1550.transmitPhase; (try dsimp only); split_ifs
  · rw [PC1550.holdCount_cbr]
  · rfl

theorem PC1550.transmit_cwk (s : PC1550) :
    s.transmitPhase.cyclesWithoutKey = s.cyclesWithoutKey := by
  unfold PC1550.transmitPhase; (try dsimp only); split_ifs
  · rw [PC1550.holdCount_cwk]
  · rfl

theorem PC1550.transmit_bTE (s : PC1550) :
    s.transmitPhase.bTransmissionEnd = s.bTransmissionEnd := by
  unfold PC1550.transmitPhase; (try dsimp only); split_ifs
  · rw [PC1550.holdCount_bTE]
  · rfl

theorem PC1550.transmit_transmitting (s : PC1550) :
    s.transmitPhase.transmitting = s.transmitting := by
  unfold PC1550.transmitPhase; (try dsimp only); split_ifs
  · rw [PC1550.holdCount_transmitting]
  · rfl

theorem PC1550.classify_sync (s : PC1550) :
    s.classifyKeypadPhase.synchronized = s.synchronized := by
  unfold PC1550.classifyKeypadPhase; split_ifs <;> rfl

theorem PC1550.classify_cd (s : PC1550) :
    s.classifyKeypadPhase.controller_data = s.controller_data := by
  unfold PC1550.classifyKeypadPhase; split_ifs <;> rfl

theorem PC1550.classify_kd (s : PC1550) :
    s.classifyKeypadPhase.keypad_data = s.keypad_data := by
  unfold PC1550.classifyKeypadPhase; split_ifs <;> rfl

theorem PC1550.classify_kbr (s : PC1550) :
    s.classifyKeypadPhase.keypad_bits_read = s.keypad_bits_read := by
  unfold PC1550.classifyKeypadPhase; split_ifs <;> rfl

theorem PC1550.classify_pc (s : PC1550) :
    s.classifyKeypadPhase.pc16out_data = s.pc16out_data := by
  unfold PC1550.classifyKeypadPhase; split_ifs <;> rfl

theorem PC1550.classify_iCB (s : PC1550) :
    s.classifyKeypadPhase.iConsecutiveBeeps = s.iConsecutiveBeeps := by
  unfold PC1550.classifyKeypadPhase; split_ifs <;> rfl

theorem PC1550.classify_key (s : PC1550) :
    s.classifyKeypadPhase.key_to_send = s.key_to_send := by
  unfold PC1550.classifyKeypadPhase; split_ifs <;> rfl

theorem PC1550.classify_cwk (s : PC1550) :
    s.classifyKeypadPhase.cyclesWithoutKey = s.cyclesWithoutKey := by
  unfold PC1550.classifyKeypadPhase; split_ifs <;> rfl

theorem PC1550.classify_transmitting (s : PC1550) :
    s.classifyKeypadPhase.transmitting = s.transmitting := by
  unfold PC1550.classifyKeypadPhase; split_ifs <;> rfl

theorem PC1550.classify_pin (s : PC1550) :
    s.classifyKeypadPhase.dataPinOutput = s.dataPinOutput := by
  unfold PC1550.classifyKeypadPhase; split_ifs <;> rfl

theorem PC1550.snapshot_kd (s : PC1550) :
    s.snapshotPhase.keypad_data = s.keypad_data := rfl

theorem PC1550.snapshot_kbr (s : PC1550) :
    s.snapshotPhase.keypad_bits_read = s.keypad_bits_read := rfl

theorem PC1550.snapshot_key (s : PC1550) :
    s.snapshotPhase.key_to_send = s.key_to_send := rfl

theorem PC1550.snapshot_cwk (s : PC1550) :
    s.snapshotPhase.cyclesWithoutKey = s.cyclesWithoutKey := rfl

theorem PC1550.snapshot_transmitting (s : PC1550) :
    s.snapshotPhase.transmitting = s.transmitting := rfl

theorem PC1550.snapshot_pin (s : PC1550) :
    s.snapshotPhase.dataPinOutput = s.dataPinOutput := rfl

theorem PC1550.snapshot_krd (s : PC1550) :
    s.snapshotPhase.key_released_data = s.key_released_data := rfl

theorem PC1550.snapshot_bKP (s : PC1550) :
    s.snapshotPhase.bKeyPressed = s.bKeyPressed := rfl

theorem PC1550.snapshot_iCKPC (s : PC1550) :
    s.snapshotPhase.iConsecutiveKeyPressCycles = s.iConsecutiveKeyPressCycles := rfl

theorem PC1550.beep_acd (s : PC1550) :
    s.beepPhase.available_controller_data = s.available_controller_data := by
  unfold PC1550.beepPhase; split_ifs <;> rfl

theorem PC1550.beep_akd (s : PC1550) :
    s.beepPhase.available_keypad_data = s.available_keypad_data := by
  unfold PC1550.beepPhase; split_ifs <;> rfl

theorem PC1550.beep_apc (s : PC1550) :
    s.beepPhase.available_pc16out_data = s.available_pc16out_data := by
  unfold PC1550.beepPhase; split_ifs <;> rfl

theorem PC1550.beep_kd (s : PC1550) :
    s.beepPhase.keypad_data = s.keypad_data := by
  unfold PC1550.beepPhase; split_ifs <;> rfl

theorem PC1550.beep_kbr (s : PC1550) :
    s.beepPhase.keypad_bits_read = s.keypad_bits_read := by
  unfold PC1550.beepPhase; split_ifs <;> rfl

theorem PC1550.beep_krd (s : PC1550) :
    s.beepPhase.key_released_data = s.key_released_data := by
  unfold PC1550.beepPhase; split_ifs <;> rfl

theorem PC1550.beep_bKP (s : PC1550) :
    s.beepPhase.bKeyPressed = s.bKeyPressed := by
  unfold PC1550.beepPhase; split_ifs <;> rfl

theorem PC1550.beep_iCKPC (s : PC1550) :
    s.beepPhase.iConsecutiveKeyPressCycles = s.iConsecutiveKeyPressCycles := by
  unfold PC1550.beepPhase; split_ifs <;> rfl

theorem PC1550.beep_key (s : PC1550) :
    s.beepPhase.key_to_send = s.key_to_send := by
  unfold PC1550.beepPhase; split_ifs <;> rfl

theorem PC1550.beep_cwk (s : PC1550) :
    s.beepPhase.cyclesWithoutKey = s.cyclesWithoutKey := by
  unfold PC1550.beepPhase; split_ifs <;> rfl

theorem PC1550.beep_transmitting (s : PC1550) :
    s.beepPhase.transmitting = s.transmitting := by
  unfold PC1550.beepPhase; split_ifs <;> rfl

theorem PC1550.beep_pin (s : PC1550) :
    s.beepPhase.dataPinOutput = s.dataPinOutput := by
  unfold PC1550.beepPhase; split_ifs <;> rfl

theorem PC1550.fc_kd (s : PC1550) :
    s.frameCompleteStep.keypad_data = s.keypad_data := by
  unfold PC1550.frameCompleteStep; (try dsimp only); split_ifs
  · rw [PC1550.beep_kd, PC1550.snapshot_kd, PC1550.classify_kd]
  · rfl

theorem PC1550.fc_kbr (s : PC1550) :
    s.frameCompleteStep.keypad_bits_read = s.keypad_bits_read := by
  unfold PC1550.frameCompleteStep; (try dsimp only); split_ifs
  · rw [PC1550.beep_kbr, PC1550.snapshot_kbr, PC1550.classify_kbr]
  · rfl

theorem PC1550.fc_key (s : PC1550) :
    s.frameCompleteStep.key_to_send = s.key_to_send := by
  unfold PC1550.frameCompleteStep; (try dsimp only); split_ifs
  · rw [PC1550.beep_key, PC1550.snapshot_key, PC1550.classify_key]
  · rfl

theorem PC1550.fc_cwk (s : PC1550) :
    s.frameCompleteStep.cyclesWithoutKey = s.cyclesWithoutKey := by
  unfold PC1550.frameCompleteStep; (try dsimp only); split_ifs
  · rw [PC1550.beep_cwk, PC1550.snapshot_cwk, PC1550.classify_cwk]
  · rfl

theorem PC1550.fc_transmitting (s : PC1550) :
    s.frameCompleteStep.transmitting = s.transmitting := by
  unfold PC1550.frameCompleteStep; (try dsimp only); split_ifs
  · rw [PC1550.beep_transmitting, PC1550.snapshot_transmitting, PC1550.classify_transmitting]
  · rfl

theorem PC1550.fc_pin (s : PC1550) :
    s.frameCompleteStep.dataPinOutput = s.dataPinOutput := by
  unfold PC1550.frameCompleteStep; (try dsimp only); split_ifs
  · rw [PC1550.beep_pin, PC1550.snapshot_pin, PC1550.classify_pin]
  · rfl

theorem PC1550.fc_sync_true (s : PC1550) :
    s.frameCompleteStep.synchronized = true → s.synchronized = true := by
  unfold PC1550.frameCompleteStep; (try dsimp only); split_ifs
  · intro h; exact absurd h (by simp)
  · exact fun h => h

/-- The 15 recognized key symbols, in the order of the source tables. -/
def keyChars : List Char :=
  ['1', '2', '3', '4', '5', '6', '7', '8', '9', '*', '0', '#', 'F', 'A', 'P']

/-- The 15 physical key codes, in the order of the source tables. -/
def keyCodes : List Nat :=
  [0b01000001, 0b00100001, 0b00010001, 0b01000010, 0b00100010, 0b00010010,
   0b01000100, 0b00100100, 0b00010100, 0b01001000, 0b00101000, 0b00011000,
   0b01000000, 0b00100000, 0b00010000]

/-- C8: for each of the 15 key symbols, encoding with `getKeyValue` and
decoding with `getKeyChar` round-trips to the original symbol; every other
character encodes to the sentinel 0, and every value that is not one of the
15 physical codes decodes to the no-symbol sentinel. -/
theorem C8_key_table_round_trip :
    (∀ c ∈ keyChars, PC1550.getKeyChar (PC1550.getKeyValue c) = c) ∧
    (∀ c : Char, c ∉ keyChars → PC1550.getKeyValue c = 0) ∧
    (∀ v : Nat, v ∉ keyCodes → PC1550.getKeyChar v = Char.ofNat 0) := by
  refine ⟨by decide, ?_, ?_⟩
  · intro c hc
    simp only [keyChars, List.mem_cons, List.not_mem_nil, or_false, not_or] at hc
    obtain ⟨h1, h2, h3, h4, h5, h6, h7, h8, h9, h10, h11, h12, h13, h14, h15⟩ := hc
    simp [PC1550.getKeyValue, h1, h2, h3, h4, h5, h6, h7, h8, h9, h10, h11,
      h12, h13, h14, h15]
  · intro v hv
    simp only [keyCodes, List.mem_cons, List.not_mem_nil, or_false, not_or] at hv
    obtain ⟨h1, h2, h3, h4, h5, h6, h7, h8, h9, h10, h11, h12, h13, h14, h15⟩ := hv
    simp [PC1550.getKeyChar, h1, h2, h3, h4, h5, h6, h7, h8, h9, h10, h11,
      h12, h13, h14, h15]

/-- Witness for C8 at the concrete inputs `'5'`, `'x'` and `3`. -/
theorem C8_key_table_round_trip_witness :
    PC1550.getKeyChar (PC1550.getKeyValue '5') = '5' ∧
    PC1550.getKeyValue 'x' = 0 ∧
    PC1550.getKeyChar 3 = Char.ofNat 0 :=
  ⟨C8_key_table_round_trip.1 '5' (by decide),
   C8_key_table_round_trip.2.1 'x' (by decide),
   C8_key_table_round_trip.2.2 3 (by decide)⟩

/-- C9: each status-light accessor reads exactly one bit of the 16-bit
available status snapshot: zone lights 1-6 are bits 15-10, the five named
state lights are bits 7-3, and the beep flag is bit 0. -/
theorem C9_status_light_bits :
    ∀ s : PC1550, s.available_controller_data < 65536 →
      s.Zone1Light = s.available_controller_data.testBit 15 ∧
      s.Zone2Light = s.available_controller_data.testBit 14 ∧
      s.Zone3Light = s.available_controller_data.testBit 13 ∧
      s.Zone4Light = s.available_controller_data.testBit 12 ∧
      s.Zone5Light = s.available_controller_data.testBit 11 ∧
      s.Zone6Light = s.available_controller_data.testBit 10 ∧
      s.ReadyLight = s.available_controller_data.testBit 7 ∧
      s.ArmedLight = s.available_controller_data.testBit 6 ∧
      s.MemoryLight = s.available_controller_data.testBit 5 ∧
      s.BypassLight = s.available_controller_data.testBit 4 ∧
      s.TroubleLight = s.available_controller_data.testBit 3 ∧
      s.Beep = s.available_controller_data.testBit 0 := by
  intro s hd
  refine ⟨?_, ?_, ?_, ?_, ?_, ?_, ?_, ?_, ?_, ?_, ?_, ?_⟩ <;>
  · simp only [PC1550.Zone1Light, PC1550.Zone2Light, PC1550.Zone3Light,
      PC1550.Zone4Light, PC1550.Zone5Light, PC1550.Zone6Light,
      PC1550.ReadyLight, PC1550.ArmedLight, PC1550.MemoryLight,
      PC1550.BypassLight, PC1550.TroubleLight, PC1550.Beep,
      Nat.shiftLeft_eq, Nat.shiftRight_eq_div_pow, Nat.testBit_to_div_mod,
      decide_eq_decide]
    norm_num
    omega

/-- Witness for C9 at a concrete snapshot value. -/
theorem C9_status_light_bits_witness :
    ({ PC1550.initState 0 with available_controller_data := 43690 }).Zone1Light =
        (43690 : Nat).testBit 15 ∧
    ({ PC1550.initState 0 with available_controller_data := 43690 }).Zone2Light =
        (43690 : Nat).testBit 14 ∧
    ({ PC1550.initState 0 with available_controller_data := 43690 }).Zone3Light =
        (43690 : Nat).testBit 13 ∧
    ({ PC1550.initState 0 with available_controller_data := 43690 }).Zone4Light =
        (43690 : Nat).testBit 12 ∧
    ({ PC1550.initState 0 with available_controller_data := 43690 }).Zone5Light =
        (43690 : Nat).testBit 11 ∧
    ({ PC1550.initState 0 with available_controller_data := 43690 }).Zone6Light =
        (43690 : Nat).testBit 10 ∧
    ({ PC1550.initState 0 with available_controller_data := 43690 }).ReadyLight =
        (43690 : Nat).testBit 7 ∧
    ({ PC1550.initState 0 with available_controller_data := 43690 }).ArmedLight =
        (43690 : Nat).testBit 6 ∧
    ({ PC1550.initState 0 with available_controller_data := 43690 }).MemoryLight =
        (43690 : Nat).testBit 5 ∧
    ({ PC1550.initState 0 with available_controller_data := 43690 }).BypassLight =
        (43690 : Nat).testBit 4 ∧
    ({ PC1550.initState 0 with available_controller_data := 43690 }).TroubleLight =
        (43690 : Nat).testBit 3 ∧
    ({ PC1550.initState 0 with available_controller_data := 43690 }).Beep =
        (43690 : Nat).testBit 0 :=
  C9_status_light_bits { PC1550.initState 0 with available_controller_data := 43690 }
    (by decide)

/-- C7: `sendKey` rejects with no state change exactly when a request is
still pending, the quiet cycle has not elapsed, or the symbol is invalid;
otherwise it records the key code and hold count and reports success. -/
theorem C7_sendKey_reject_or_record :
    ∀ (s : PC1550) (c : Char) (n : Nat), n < 256 →
      s.sendKey c n =
        if s.keyHoldCycles > 0 ∨ s.cyclesWithoutKey < 1 ∨ PC1550.getKeyValue c = 0
        then (s, false)
        else ({ s with key_to_send := PC1550.getKeyValue c, keyHoldCycles := n }, true) := by
  intro s c n hn
  by_cases h1 : s.keyHoldCycles > 0 ∨ s.cyclesWithoutKey < 1
  · have hr : s.readyForKeyPress = false := by
      unfold PC1550.readyForKeyPress; rw [if_pos h1]
    unfold PC1550.sendKey
    rw [hr, if_pos (show ¬((false : Bool) = true) by decide),
      if_pos (h1.elim Or.inl fun h => Or.inr (Or.inl h))]
  · have hr : s.readyForKeyPress = true := by
      unfold PC1550.readyForKeyPress; rw [if_neg h1]
    unfold PC1550.sendKey
    rw [hr, if_neg (show ¬¬((true : Bool) = true) by decide)]
    dsimp only
    by_cases h2 : PC1550.getKeyValue c = 0
    · rw [if_pos h2, if_pos (Or.inr (Or.inr h2))]
    · have h3 : ¬(s.keyHoldCycles > 0 ∨ s.cyclesWithoutKey < 1 ∨
          PC1550.getKeyValue c = 0) := by
        rintro (h | h | h)
        · exact h1 (Or.inl h)
        · exact h1 (Or.inr h)
        · exact h2 h
      rw [if_neg h2, if_neg h3, Nat.mod_eq_of_lt hn]

/-- Witness for C7 at a ready state with key `'5'` and hold count 3. -/
theorem C7_sendKey_reject_or_record_witness :
    ({ PC1550.initState 0 with cyclesWithoutKey := 1 }).sendKey '5' 3 =
      if ({ PC1550.initState 0 with cyclesWithoutKey := 1 } : PC1550).keyHoldCycles > 0 ∨
          ({ PC1550.initState 0 with cyclesWithoutKey := 1 } : PC1550).cyclesWithoutKey < 1 ∨
          PC1550.getKeyValue '5' = 0
      then ({ PC1550.initState 0 with cyclesWithoutKey := 1 }, false)
      else ({ { PC1550.initState 0 with cyclesWithoutKey := 1 } with
                key_to_send := PC1550.getKeyValue '5', keyHoldCycles := 3 }, true) :=
  C7_sendKey_reject_or_record { PC1550.initState 0 with cyclesWithoutKey := 1 } '5' 3
    (by decide)

/-- Characterization of how one poll changes the without-key cycle counter:
it changes only on the first bit of a synchronized frame, where it is zeroed
if a key is pending and incremented otherwise. -/
theorem PC1550.pcc_cwk (s : PC1550) (i : ClockInputs) :
    (s.processClockCycle i).cyclesWithoutKey =
      if i.clock = true ∧ s.last_clock ≠ i.clock ∧ s.synchronized = true ∧
          (s.controller_bits_read + 1) % 256 = 1 then
        (if s.key_to_send ≠ 0 then 0 else (s.cyclesWithoutKey + 1) % 256)
      else s.cyclesWithoutKey := by
  unfold PC1550.processClockCycle PC1550.preComplete
  dsimp only
  rw [PC1550.fc_cwk]
  by_cases hc : i.clock = true
  · have hrs : ({ s with bTransmissionEnd := false } : PC1550).resyncStep i =
        { s with bTransmissionEnd := false } := by
      unfold PC1550.resyncStep
      rw [if_neg (fun hcon => by rw [hc] at hcon; exact absurd hcon.1 (by simp))]
    have hfe : ({ s with bTransmissionEnd := false } : PC1550).fallingEdgeStep i =
        { s with bTransmissionEnd := false } := by
      unfold PC1550.fallingEdgeStep
      rw [if_neg (fun hcon => by rw [hc] at hcon; exact absurd hcon.1 (by simp))]
    rw [hrs, hfe]
    unfold PC1550.risingEdgeStep
    by_cases hl : s.last_clock ≠ i.clock
    · rw [if_pos ⟨hc, hl⟩]
      rw [PC1550.transmit_cwk, PC1550.sanity_cwk]
      unfold PC1550.keyArmPhase PC1550.storeBitsPhase
      dsimp only
      by_cases hs : s.synchronized = true ∧ (s.controller_bits_read + 1) % 256 = 1
      · rw [if_pos hs]
        rw [if_pos (show i.clock = true ∧ s.last_clock ≠ i.clock ∧ _ ∧ _ from
          ⟨hc, hl, hs.1, hs.2⟩)]
        by_cases hk : s.key_to_send ≠ 0
        · rw [if_pos hk, if_pos hk]
        · rw [if_neg hk, if_neg hk]
      · rw [if_neg hs]
        rw [if_neg (show ¬(i.clock = true ∧ s.last_clock ≠ i.clock ∧
          s.synchronized = true ∧ (s.controller_bits_read + 1) % 256 = 1) from
          fun hcon => hs hcon.2.2)]
    · rw [if_neg (show ¬(i.clock = true ∧ s.last_clock ≠ i.clock) from
        fun hcon => hl hcon.2)]
      rw [if_neg (show ¬(i.clock = true ∧ s.last_clock ≠ i.clock ∧
        s.synchronized = true ∧ (s.controller_bits_read + 1) % 256 = 1) from
        fun hcon => hl hcon.2.1)]
  · have hcf : i.clock = false := by revert hc; cases i.clock <;> simp
    rw [if_neg (show ¬(i.clock = true ∧ s.last_clock ≠ i.clock ∧
      s.synchronized = true ∧ (s.controller_bits_read + 1) % 256 = 1) from
      fun hcon => hc hcon.1)]
    have h1 : ((({ s with bTransmissionEnd := false } : PC1550).resyncStep i).fallingEdgeStep
        i).risingEdgeStep i =
        (({ s with bTransmissionEnd := false } : PC1550).resyncStep i).fallingEdgeStep i := by
      unfold PC1550.risingEdgeStep
      rw [if_neg (fun hcon => hc hcon.1)]
    rw [h1, PC1550.falling_cwk, PC1550.resync_cwk]

/-- C10: immediately after construction the engine is not ready for a key
press and every `sendKey` call fails, because the without-key cycle counter
starts at zero; that counter first becomes nonzero only when the engine
processes the first bit of a synchronized frame with no key pending. -/
theorem C10_sendKey_blocked_until_first_frame :
    ∀ t0 : Nat,
      (PC1550.initState t0).readyForKeyPress = false ∧
      (∀ (c : Char) (n : Nat),
        (PC1550.initState t0).sendKey c n = (PC1550.initState t0, false)) ∧
      (∀ (s : PC1550) (i : ClockInputs),
        s.cyclesWithoutKey = 0 →
        (s.processClockCycle i).cyclesWithoutKey ≠ 0 →
        i.clock = true ∧ s.last_clock = false ∧ s.synchronized = true ∧
          (s.controller_bits_read + 1) % 256 = 1 ∧ s.key_to_send = 0) := by
  intro t0
  refine ⟨rfl, fun c n => rfl, ?_⟩
  intro s i h0 hne
  rw [PC1550.pcc_cwk] at hne
  by_cases hcond : i.clock = true ∧ s.last_clock ≠ i.clock ∧ s.synchronized = true ∧
      (s.controller_bits_read + 1) % 256 = 1
  · rw [if_pos hcond] at hne
    by_cases hk : s.key_to_send ≠ 0
    · rw [if_pos hk] at hne
      exact absurd rfl hne
    · obtain ⟨a, b, c, d⟩ := hcond
      refine ⟨a, ?_, c, d, by omega⟩
      rw [a] at b
      revert b; cases s.last_clock <;> simp
  · rw [if_neg hcond] at hne
    exact absurd h0 hne

/-- Witness for C10: the construction facts at `t0 = 0` and the counter
transition at a concrete synchronized first-bit poll. -/
theorem C10_sendKey_blocked_until_first_frame_witness :
    (PC1550.initState 0).readyForKeyPress = false ∧
    (PC1550.initState 0).sendKey '5' 1 = (PC1550.initState 0, false) ∧
    (({ PC1550.initState 0 with synchronized := true, last_clock := false
        }).processClockCycle ⟨true, false, false, true, 100, 100⟩).cyclesWithoutKey ≠ 0 ∧
    ((⟨true, false, false, true, 100, 100⟩ : ClockInputs).clock = true ∧
      ({ PC1550.initState 0 with synchronized := true, last_clock := false } : PC1550).last_clock
        = false ∧
      ({ PC1550.initState 0 with synchronized := true, last_clock := false } : PC1550).synchronized
        = true ∧
      (({ PC1550.initState 0 with synchronized := true, last_clock := false } : PC1550).controller_bits_read
          + 1) % 256 = 1 ∧
      ({ PC1550.initState 0 with synchronized := true, last_clock := false } : PC1550).key_to_send
        = 0) := by
  refine ⟨(C10_sendKey_blocked_until_first_frame 0).1, (C10_sendKey_blocked_until_first_frame 0).2.1 '5' 1, by decide, ?_⟩
  exact (C10_sendKey_blocked_until_first_frame 0).2.2
    { PC1550.initState 0 with synchronized := true, last_clock := false }
    ⟨true, false, false, true, 100, 100⟩ (by decide) (by decide)

/-! Identity and value lemmas used to evaluate a poll along a known path. -/

theorem PC1550.resync_id_of_not (s : PC1550) (i : ClockInputs)
    (h : ¬(i.clock = false ∧ 25000 < elapsedMicros i.now s.last_read ∧
      elapsedMicros i.now s.last_read < 28000)) :
    s.resyncStep i = s := by
  unfold PC1550.resyncStep; rw [if_neg h]

theorem PC1550.resync_id_clock_true (s : PC1550) (i : ClockInputs)
    (h : i.clock = true) : s.resyncStep i = s :=
  PC1550.resync_id_of_not s i (fun hcon => by rw [h] at hcon; exact absurd hcon.1 (by simp))

theorem PC1550.falling_id_clock_true (s : PC1550) (i : ClockInputs)
    (h : i.clock = true) : s.fallingEdgeStep i = s := by
  unfold PC1550.fallingEdgeStep
  rw [if_neg (fun hcon => by rw [h] at hcon; exact absurd hcon.1 (by simp))]

theorem PC1550.falling_id_cbr0 (s : PC1550) (i : ClockInputs)
    (h : s.controller_bits_read = 0) : s.fallingEdgeStep i = s := by
  unfold PC1550.fallingEdgeStep
  split_ifs with h1 h2 h3
  · exact absurd h2.1 (by omega)
  · exact absurd h2.1 (by omega)
  · rfl
  · rfl

theorem PC1550.rising_id_clock_false (s : PC1550) (i : ClockInputs)
    (h : i.clock = false) : s.risingEdgeStep i = s := by
  unfold PC1550.risingEdgeStep
  rw [if_neg (fun hcon => by rw [h] at hcon; exact absurd hcon.1 (by simp))]

theorem PC1550.rising_sync (s : PC1550) (i : ClockInputs) :
    (s.risingEdgeStep i).synchronized = s.synchronized := by
  unfold PC1550.risingEdgeStep
  split_ifs
  · rw [PC1550.transmit_sync, PC1550.sanity_sync, PC1550.keyArm_sync]; rfl
  · rfl

theorem PC1550.rising_bTE (s : PC1550) (i : ClockInputs) :
    (s.risingEdgeStep i).bTransmissionEnd = s.bTransmissionEnd := by
  unfold PC1550.risingEdgeStep
  split_ifs
  · rw [PC1550.transmit_bTE, PC1550.sanity_bTE, PC1550.keyArm_bTE]; rfl
  · rfl

theorem PC1550.preComplete_bTE (s : PC1550) (i : ClockInputs) :
    (s.preComplete i).bTransmissionEnd = false := by
  unfold PC1550.preComplete
  rw [PC1550.rising_bTE, PC1550.falling_bTE, PC1550.resync_bTE]

theorem PC1550.keyArm_transmitting_of (s : PC1550) (h : s.transmitting = true) :
    s.keyArmPhase.transmitting = true := by
  unfold PC1550.keyArmPhase
  split_ifs
  · rfl
  · exact h
  · exact h

theorem PC1550.sanity_transmitting_lt (s : PC1550) (h : s.controller_bits_read < 8) :
    s.sanityPhase.transmitting = s.transmitting := by
  unfold PC1550.sanityPhase; rw [if_neg (by omega)]

theorem PC1550.snapshot_acd (s : PC1550) :
    s.snapshotPhase.available_controller_data = s.controller_data := rfl

theorem PC1550.snapshot_akd (s : PC1550) :
    s.snapshotPhase.available_keypad_data = s.keypad_data := rfl

theorem PC1550.snapshot_apc (s : PC1550) :
    s.snapshotPhase.available_pc16out_data = s.pc16out_data := rfl

theorem beepBitIff (d : Nat) : ((d <<< 15) % 65536) >>> 15 ≠ 0 ↔ d % 2 = 1 := by
  rw [Nat.shiftLeft_eq, Nat.shiftRight_eq_div_pow]
  norm_num
  omega

theorem PC1550.snapshot_iCB (s : PC1550) :
    s.snapshotPhase.iConsecutiveBeeps = s.iConsecutiveBeeps := rfl

theorem PC1550.beep_iCB_val (s : PC1550) :
    s.beepPhase.iConsecutiveBeeps =
      if s.available_controller_data % 2 = 1 then s.iConsecutiveBeeps + 1 else 0 := by
  unfold PC1550.beepPhase PC1550.Beep
  split_ifs with hA hB hB
  · exact absurd ((beepBitIff _).mpr hB) (of_decide_eq_false hA)
  · rfl
  · rfl
  · rcases Bool.eq_false_or_eq_true
      (decide (((s.available_controller_data <<< 15) % 65536) >>> 15 ≠ 0)) with h | h
    · exact absurd ((beepBitIff _).mp (of_decide_eq_true h)) hB
    · exact absurd h hA

/-- C1: on any poll in which the frame position reaches 16 while
synchronized, the engine publishes all three accumulators as the available
snapshots, updates the consecutive-beep counter from the beep bit of the
new status word, raises the frame-complete flag, and unconditionally drops
synchronization and resets the frame position to zero; on any poll where the
completion test fails, the frame-complete flag ends the call false. -/
theorem C1_frame_completion :
    (∀ (s : PC1550) (i : ClockInputs),
      (s.preComplete i).synchronized = true →
      (s.preComplete i).controller_bits_read = 16 →
      (s.processClockCycle i).available_controller_data = (s.preComplete i).controller_data ∧
      (s.processClockCycle i).available_keypad_data = (s.preComplete i).keypad_data ∧
      (s.processClockCycle i).available_pc16out_data = (s.preComplete i).pc16out_data ∧
      (s.processClockCycle i).iConsecutiveBeeps =
        (if (s.preComplete i).controller_data % 2 = 1
         then (s.preComplete i).iConsecutiveBeeps + 1 else 0) ∧
      (s.processClockCycle i).bTransmissionEnd = true ∧
      (s.processClockCycle i).synchronized = false ∧
      (s.processClockCycle i).controller_bits_read = 0) ∧
    (∀ (s : PC1550) (i : ClockInputs),
      ¬((s.preComplete i).synchronized = true ∧
        (s.preComplete i).controller_bits_read = 16) →
      (s.processClockCycle i).bTransmissionEnd = false) := by
  constructor
  · intro s i h1 h2
    unfold PC1550.processClockCycle
    dsimp only
    unfold PC1550.frameCompleteStep
    rw [if_pos ⟨h1, h2⟩]
    dsimp only
    refine ⟨?_, ?_, ?_, ?_, rfl, rfl, rfl⟩
    · rw [PC1550.beep_acd, PC1550.snapshot_acd, PC1550.classify_cd]
    · rw [PC1550.beep_akd, PC1550.snapshot_akd, PC1550.classify_kd]
    · rw [PC1550.beep_apc, PC1550.snapshot_apc, PC1550.classify_pc]
    · rw [PC1550.beep_iCB_val, PC1550.snapshot_acd, PC1550.classify_cd,
        PC1550.snapshot_iCB, PC1550.classify_iCB]
  · intro s i hn
    unfold PC1550.processClockCycle
    dsimp only
    unfold PC1550.frameCompleteStep
    rw [if_neg hn]
    exact PC1550.preComplete_bTE s i

/-- State used by the C1 witness: synchronized, 15 bits read, clock low. -/
def stateC1 : PC1550 :=
  { PC1550.initState 0 with
    synchronized := true
    controller_bits_read := 15
    last_clock := false }

/-- Input used by the C1 witness: a rising clock edge. -/
def inputC1 : ClockInputs := ⟨true, false, false, true, 100, 100⟩

/-- Witness for C1: a poll completing the 16th bit of a synchronized frame,
and a poll that does not complete a frame. -/
theorem C1_frame_completion_witness :
    ((stateC1.processClockCycle inputC1).available_controller_data =
        (stateC1.preComplete inputC1).controller_data ∧
      (stateC1.processClockCycle inputC1).available_keypad_data =
        (stateC1.preComplete inputC1).keypad_data ∧
      (stateC1.processClockCycle inputC1).available_pc16out_data =
        (stateC1.preComplete inputC1).pc16out_data ∧
      (stateC1.processClockCycle inputC1).iConsecutiveBeeps =
        (if (stateC1.preComplete inputC1).controller_data % 2 = 1
         then (stateC1.preComplete inputC1).iConsecutiveBeeps + 1 else 0) ∧
      (stateC1.processClockCycle inputC1).bTransmissionEnd = true ∧
      (stateC1.processClockCycle inputC1).synchronized = false ∧
      (stateC1.processClockCycle inputC1).controller_bits_read = 0) ∧
    ((PC1550.initState 0).processClockCycle
      ⟨false, false, false, true, 100, 100⟩).bTransmissionEnd = false :=
  ⟨C1_frame_completion.1 stateC1 inputC1 (by decide) (by decide),
   C1_frame_completion.2 (PC1550.initState 0)
      ⟨false, false, false, true, 100, 100⟩ (by decide)⟩

/-- C2 counterexample: with an idle-high clock line and an idle gap of
exactly 25000 microseconds (inside the closed interval [25000, 28000] the
claim names), the engine does not resynchronize, because the source demands
a gap strictly greater than 25000. -/
theorem C2_resync_band_counterexample :
    (⟨false, false, false, true, 25000, 25000⟩ : ClockInputs).clock = false ∧
    elapsedMicros 25000
      ({ PC1550.initState 0 with last_clock := false } : PC1550).last_read = 25000 ∧
    (({ PC1550.initState 0 with last_clock := false }).processClockCycle
      ⟨false, false, false, true, 25000, 25000⟩).synchronized = false := by
  refine ⟨rfl, ?_, ?_⟩ <;> decide

/-- C2 (amended): the engine declares synchronization - setting the flag and
zeroing the frame position and the three accumulators - exactly when the
clock line reads idle and the idle gap lies strictly inside the open
interval (25000, 28000) microseconds; outside that band the poll never
newly sets the flag. -/
theorem C2_resync_band (s : PC1550) (i : ClockInputs) :
    (i.clock = false → 25000 < elapsedMicros i.now s.last_read →
      elapsedMicros i.now s.last_read < 28000 →
      (s.processClockCycle i).synchronized = true ∧
      (s.processClockCycle i).controller_bits_read = 0 ∧
      (s.processClockCycle i).controller_data = 0 ∧
      (s.processClockCycle i).pc16out_data = 0 ∧
      (s.processClockCycle i).keypad_data = 0 ∧
      (s.processClockCycle i).keypad_bits_read = 0 ∧
      (s.processClockCycle i).keypad_bits_sent = 0) ∧
    (¬(i.clock = false ∧ 25000 < elapsedMicros i.now s.last_read ∧
        elapsedMicros i.now s.last_read < 28000) →
      (s.processClockCycle i).synchronized = true → s.synchronized = true) := by
  constructor
  · intro hcl h25 h28
    unfold PC1550.processClockCycle PC1550.preComplete
    dsimp only
    unfold PC1550.resyncStep
    rw [if_pos ⟨hcl, h25, h28⟩]
    dsimp only
    rw [PC1550.falling_id_cbr0 _ _ rfl, PC1550.rising_id_clock_false _ _ hcl]
    unfold PC1550.frameCompleteStep
    rw [if_neg (fun hcon => by simp at hcon)]
    exact ⟨rfl, rfl, rfl, rfl, rfl, rfl, rfl⟩
  · intro hn hres
    unfold PC1550.processClockCycle PC1550.preComplete at hres
    dsimp only at hres
    rw [PC1550.resync_id_of_not { s with bTransmissionEnd := false } i
      (fun hcon => hn ⟨hcon.1, hcon.2.1, hcon.2.2⟩)] at hres
    have h1 := PC1550.fc_sync_true _ hres
    rw [PC1550.rising_sync, PC1550.falling_sync] at h1
    exact h1

/-- Witness for C2 at a concrete in-band gap (26000 microseconds) and a
concrete out-of-band poll. -/
theorem C2_resync_band_witness :
    ((({ PC1550.initState 0 with last_clock := false }).processClockCycle
        ⟨false, false, false, true, 26000, 26000⟩).synchronized = true ∧
      (({ PC1550.initState 0 with last_clock := false }).processClockCycle
        ⟨false, false, false, true, 26000, 26000⟩).controller_bits_read = 0 ∧
      (({ PC1550.initState 0 with last_clock := false }).processClockCycle
        ⟨false, false, false, true, 26000, 26000⟩).controller_data = 0 ∧
      (({ PC1550.initState 0 with last_clock := false }).processClockCycle
        ⟨false, false, false, true, 26000, 26000⟩).pc16out_data = 0 ∧
      (({ PC1550.initState 0 with last_clock := false }).processClockCycle
        ⟨false, false, false, true, 26000, 26000⟩).keypad_data = 0 ∧
      (({ PC1550.initState 0 with last_clock := false }).processClockCycle
        ⟨false, false, false, true, 26000, 26000⟩).keypad_bits_read = 0 ∧
      (({ PC1550.initState 0 with last_clock := false }).processClockCycle
        ⟨false, false, false, true, 26000, 26000⟩).keypad_bits_sent = 0) ∧
    ((({ PC1550.initState 0 with last_clock := false }).processClockCycle
        ⟨false, false, false, true, 100, 100⟩).synchronized = true →
      ({ PC1550.initState 0 with last_clock := false } : PC1550).synchronized = true) :=
  ⟨(C2_resync_band { PC1550.initState 0 with last_clock := false }
      ⟨false, false, false, true, 26000, 26000⟩).1 rfl (by decide) (by decide),
   (C2_resync_band { PC1550.initState 0 with last_clock := false }
      ⟨false, false, false, true, 100, 100⟩).2 (by decide)⟩

/-- State used by the C3 counterexample: mid-frame position 5 with keypad
bits already accumulated, clock previously active. -/
def stateC3 : PC1550 :=
  { PC1550.initState 0 with
    controller_bits_read := 5
    keypad_bits_read := 4
    keypad_data := 64
    last_clock := true }

/-- Input used by the C3 counterexample: a falling clock edge whose idle gap
of 26000 microseconds also satisfies the resynchronization test. -/
def inputC3 : ClockInputs := ⟨false, false, false, false, 26000, 26000⟩

/-- C3 counterexample: a falling clock edge at frame position 5 (inside
[1,8)) on which the keypad accumulator is not extended by the sampled bit
but reset, because the resynchronization test fires in the same call and
zeroes the accumulators before the falling-edge branch runs. -/
theorem C3_keypad_sampling_counterexample :
    inputC3.clock = false ∧ stateC3.last_clock = true ∧
    1 ≤ stateC3.controller_bits_read ∧ stateC3.controller_bits_read < 8 ∧
    ¬((stateC3.processClockCycle inputC3).keypad_data =
        (stateC3.keypad_data |||
          ((if inputC3.data2 = true then 0 else 1) <<< (6 - stateC3.keypad_bits_read))) % 256 ∧
      (stateC3.processClockCycle inputC3).keypad_bits_read =
        (stateC3.keypad_bits_read + 1) % 256) := by
  refine ⟨rfl, rfl, by decide, by decide, ?_⟩
  decide

/-- C3 (amended): on a falling clock edge in a poll whose idle gap is outside
the resynchronization band, the engine ORs the inverted second data sample
into the keypad accumulator at bit (6 - bits read) and advances the keypad
bit counter exactly when the frame position is in [1,8); at any other frame
position both are unchanged.  (When the resynchronization band is hit in the
same call, the accumulators are first reset and no sampling occurs.) -/
theorem C3_keypad_sampling (s : PC1550) (i : ClockInputs) :
    i.clock = false → s.last_clock = true →
    ¬(25000 < elapsedMicros i.now s.last_read ∧
      elapsedMicros i.now s.last_read < 28000) →
    ((1 ≤ s.controller_bits_read ∧ s.controller_bits_read < 8 →
      (s.processClockCycle i).keypad_data =
        (s.keypad_data |||
          ((if i.data2 = true then 0 else 1) <<< (6 - s.keypad_bits_read))) % 256 ∧
      (s.processClockCycle i).keypad_bits_read = (s.keypad_bits_read + 1) % 256) ∧
    (¬(1 ≤ s.controller_bits_read ∧ s.controller_bits_read < 8) →
      (s.processClockCycle i).keypad_data = s.keypad_data ∧
      (s.processClockCycle i).keypad_bits_read = s.keypad_bits_read)) := by
  intro hcl hlc hband
  unfold PC1550.processClockCycle PC1550.preComplete
  dsimp only
  rw [PC1550.resync_id_of_not { s with bTransmissionEnd := false } i
    (fun hcon => hband ⟨hcon.2.1, hcon.2.2⟩)]
  rw [PC1550.rising_id_clock_false _ _ hcl]
  unfold PC1550.fallingEdgeStep
  rw [if_pos (show i.clock = false ∧
    ({ s with bTransmissionEnd := false } : PC1550).last_clock ≠ i.clock from
    ⟨hcl, by rw [hcl]; exact fun hcon => by rw [hlc] at hcon; simp at hcon⟩)]
  dsimp only
  constructor
  · intro hcbr
    rw [if_pos (show 0 < s.controller_bits_read ∧ s.controller_bits_read < 8 from
      ⟨by omega, hcbr.2⟩)]
    unfold PC1550.frameCompleteStep
    rw [if_neg (fun hcon => by
      have := hcon.2
      dsimp only at this
      omega)]
    exact ⟨rfl, rfl⟩
  · intro hncbr
    rw [if_neg (show ¬(0 < s.controller_bits_read ∧ s.controller_bits_read < 8) from
      fun hcon => hncbr ⟨by omega, hcon.2⟩)]
    exact ⟨by rw [PC1550.fc_kd], by rw [PC1550.fc_kbr]⟩

/-- State used by the C3 witness: position 3, two keypad bits read. -/
def stateC3w : PC1550 :=
  { PC1550.initState 0 with
    controller_bits_read := 3
    keypad_bits_read := 2
    last_clock := true }

/-- Input used by the C3 witness: a falling edge with the data line low. -/
def inputC3w : ClockInputs := ⟨false, false, false, false, 100, 100⟩

/-- Witness for C3: a concrete falling-edge sample at position 3 and a
concrete falling edge at position 0 with no accumulation. -/
theorem C3_keypad_sampling_witness :
    ((stateC3w.processClockCycle inputC3w).keypad_data =
        (stateC3w.keypad_data |||
          ((if inputC3w.data2 = true then 0 else 1) <<< (6 - stateC3w.keypad_bits_read))) % 256 ∧
      (stateC3w.processClockCycle inputC3w).keypad_bits_read =
        (stateC3w.keypad_bits_read + 1) % 256) ∧
    (((PC1550.initState 0).processClockCycle inputC3w).keypad_data =
        (PC1550.initState 0).keypad_data ∧
      ((PC1550.initState 0).processClockCycle inputC3w).keypad_bits_read =
        (PC1550.initState 0).keypad_bits_read) :=
  ⟨(C3_keypad_sampling stateC3w inputC3w rfl rfl (by decide)).1 (by decide),
   (C3_keypad_sampling (PC1550.initState 0) inputC3w rfl rfl (by decide)).2 (by decide)⟩

/-- C4: on a rising edge of a synchronized frame at position p in 1..7 with
transmit mode engaged, the data pin is driven low exactly when bit (7 - p)
of the pending key code is set; once the position reaches 8 transmit mode is
cleared regardless of remaining key bits and the pin is left floating. -/
theorem C4_transmit_drive (s : PC1550) (i : ClockInputs) :
    i.clock = true → s.last_clock = false → s.synchronized = true →
    ((1 ≤ (s.controller_bits_read + 1) % 256 → (s.controller_bits_read + 1) % 256 ≤ 7 →
      ((s.controller_bits_read + 1) % 256 = 1 ∧ s.key_to_send ≠ 0 ∨ s.transmitting = true) →
      ((s.processClockCycle i).dataPinOutput = true ↔
        (s.key_to_send >>> (7 - (s.controller_bits_read + 1) % 256)) &&& 1 = 1)) ∧
    (8 ≤ (s.controller_bits_read + 1) % 256 →
      (s.processClockCycle i).transmitting = false ∧
      (s.processClockCycle i).dataPinOutput = false)) := by
  intro hc hlc hsync
  have hYcbr : ((({ s with bTransmissionEnd := false } : PC1550).storeBitsPhase
      i)).controller_bits_read = (s.controller_bits_read + 1) % 256 := rfl
  have hYsync : ((({ s with bTransmissionEnd := false } : PC1550).storeBitsPhase
      i)).synchronized = s.synchronized := rfl
  have hYkey : ((({ s with bTransmissionEnd := false } : PC1550).storeBitsPhase
      i)).key_to_send = s.key_to_send := rfl
  have hYtr : ((({ s with bTransmissionEnd := false } : PC1550).storeBitsPhase
      i)).transmitting = s.transmitting := rfl
  have hpre : s.preComplete i =
      (((({ s with bTransmissionEnd := false } : PC1550).storeBitsPhase
        i).keyArmPhase).sanityPhase).transmitPhase := by
    unfold PC1550.preComplete
    rw [PC1550.resync_id_clock_true _ _ hc, PC1550.falling_id_clock_true _ _ hc]
    unfold PC1550.risingEdgeStep
    rw [if_pos (show i.clock = true ∧
      ({ s with bTransmissionEnd := false } : PC1550).last_clock ≠ i.clock from
      ⟨hc, by rw [hc]; exact fun hcon => by rw [hlc] at hcon; simp at hcon⟩)]
  have hpin : (s.processClockCycle i).dataPinOutput = (s.preComplete i).dataPinOutput := by
    unfold PC1550.processClockCycle; dsimp only; rw [PC1550.fc_pin]
  have hTr : (s.processClockCycle i).transmitting = (s.preComplete i).transmitting := by
    unfold PC1550.processClockCycle; dsimp only; rw [PC1550.fc_transmitting]
  constructor
  · intro h1p hp7 hT
    have htr : ((((({ s with bTransmissionEnd := false } : PC1550).storeBitsPhase
        i).keyArmPhase).sanityPhase)).transmitting = true := by
      rw [PC1550.sanity_transmitting_lt _ (by rw [PC1550.keyArm_cbr, hYcbr]; omega)]
      rcases hT with ⟨hp1, hk⟩ | htrans
      · unfold PC1550.keyArmPhase
        rw [if_pos (show _ ∧ _ from
          ⟨by rw [hYsync]; exact hsync, by rw [hYcbr]; exact hp1⟩)]
        rw [if_pos (show (({ s with bTransmissionEnd := false } : PC1550).storeBitsPhase
          i).key_to_send ≠ 0 from by rw [hYkey]; exact hk)]
      · exact PC1550.keyArm_transmitting_of _ (by rw [hYtr]; exact htrans)
    rw [hpin, hpre]
    unfold PC1550.transmitPhase
    dsimp only
    rw [if_pos htr, PC1550.holdCount_pin]
    dsimp only
    rw [PC1550.sanity_key, PC1550.keyArm_key, PC1550.sanity_cbr, PC1550.keyArm_cbr,
      hYkey, hYcbr]
    exact ⟨of_decide_eq_true, decide_eq_true⟩
  · intro hp8
    have hZtr : ((((({ s with bTransmissionEnd := false } : PC1550).storeBitsPhase
        i).keyArmPhase).sanityPhase)).transmitting = false := by
      unfold PC1550.sanityPhase
      rw [if_pos (show ((({ s with bTransmissionEnd := false } : PC1550).storeBitsPhase
        i).keyArmPhase).controller_bits_read ≥ 8 from
        by rw [PC1550.keyArm_cbr, hYcbr]; exact hp8)]
    refine ⟨?_, ?_⟩
    · rw [hTr, hpre, PC1550.transmit_transmitting]
      exact hZtr
    · rw [hpin, hpre]
      unfold PC1550.transmitPhase
      dsimp only
      rw [if_neg (show ¬(((((({ s with bTransmissionEnd := false } : PC1550).storeBitsPhase
        i).keyArmPhase).sanityPhase)).transmitting = true) from
        by rw [hZtr]; simp)]

/-- State used by the C4 witness: synchronized at position 1 with the key
code for `'5'` pending, transmitting. -/
def stateC4 : PC1550 :=
  { PC1550.initState 0 with
    synchronized := true
    controller_bits_read := 1
    last_clock := false
    transmitting := true
    key_to_send := 34
    keyHoldCycles := 3 }

/-- State used by the C4 witness part 2: position 7 about to reach 8. -/
def stateC4b : PC1550 :=
  { PC1550.initState 0 with
    synchronized := true
    controller_bits_read := 7
    last_clock := false
    transmitting := true
    key_to_send := 34
    keyHoldCycles := 3 }

/-- Input used by the C4 witness: a rising clock edge. -/
def inputC4 : ClockInputs := ⟨true, false, false, true, 100, 100⟩

/-- Witness for C4: the pin is driven per bit 5 of the key code for `'5'`
at position 2, and transmit mode ends when position 8 is reached. -/
theorem C4_transmit_drive_witness :
    ((stateC4.processClockCycle inputC4).dataPinOutput = true ↔
      (stateC4.key_to_send >>> (7 - (stateC4.controller_bits_read + 1) % 256)) &&& 1 = 1) ∧
    ((stateC4b.processClockCycle inputC4).transmitting = false ∧
      (stateC4b.processClockCycle inputC4).dataPinOutput = false) :=
  ⟨(C4_transmit_drive stateC4 inputC4 rfl rfl rfl).1 (by decide) (by decide)
      (Or.inr rfl),
   (C4_transmit_drive stateC4b inputC4 rfl rfl rfl).2 (by decide)⟩

/-- Classification at frame completion for a key-to-no-key transition: a
release is recorded and the consecutive-press counter is left unchanged. -/
theorem PC1550.classify_release (s : PC1550) (hkd : s.keypad_data = 0)
    (hakd : s.available_keypad_data ≠ 0) :
    s.classifyKeypadPhase =
      { s with bKeyPressed := false, key_released_data := s.available_keypad_data } := by
  unfold PC1550.classifyKeypadPhase
  rw [if_neg (fun hcon => hcon hkd), if_pos hakd]

/-- State used by the C6 counterexample: completing a zero-keypad frame when
the previous snapshot holds the code of key `'5'` after one press cycle. -/
def stateC6 : PC1550 :=
  { PC1550.initState 0 with
    synchronized := true
    controller_bits_read := 15
    last_clock := false
    available_keypad_data := 34
    iConsecutiveKeyPressCycles := 1 }

/-- Input used by the C6 counterexample: the rising edge of the 16th bit. -/
def inputC6 : ClockInputs := ⟨true, false, false, true, 100, 100⟩

/-- C6 counterexample: completing a frame with zero keypad data after a
frame holding key `'5'` reports the release, reports no press, but leaves
the consecutive-press counter at 1 instead of resetting it to zero. -/
theorem C6_release_event_counterexample :
    (stateC6.processClockCycle inputC6).bTransmissionEnd = true ∧
    (stateC6.processClockCycle inputC6).keyReleased = '5' ∧
    (stateC6.processClockCycle inputC6).bKeyPressed = false ∧
    (stateC6.processClockCycle inputC6).iConsecutiveKeyPressCycles ≠ 0 := by
  refine ⟨?_, ?_, ?_, ?_⟩ <;> decide

/-- C6 (amended): completing a frame whose keypad data is zero while the
previous snapshot holds a nonzero key code produces a release event - the
released code is the previous snapshot, `keyReleased` decodes it, no press
is reported - and the consecutive-press counter is left unchanged (it
resets to zero only on a completed frame with no key in either snapshot). -/
theorem C6_release_event (s : PC1550) (i : ClockInputs) :
    (s.preComplete i).synchronized = true →
    (s.preComplete i).controller_bits_read = 16 →
    (s.preComplete i).keypad_data = 0 →
    (s.preComplete i).available_keypad_data ≠ 0 →
    (s.processClockCycle i).key_released_data = (s.preComplete i).available_keypad_data ∧
    (s.processClockCycle i).keyReleased =
      PC1550.getKeyChar (s.preComplete i).available_keypad_data ∧
    (s.processClockCycle i).bKeyPressed = false ∧
    (s.processClockCycle i).iConsecutiveKeyPressCycles =
      (s.preComplete i).iConsecutiveKeyPressCycles := by
  intro h1 h2 hkd hakd
  unfold PC1550.processClockCycle
  dsimp only
  unfold PC1550.frameCompleteStep
  generalize hgen : s.preComplete i = q at h1 h2 hkd hakd ⊢
  rw [if_pos ⟨h1, h2⟩]
  dsimp only
  rw [PC1550.classify_release
    { q with bStateChanged := decide (q.available_controller_data ≠ q.controller_data) }
    hkd hakd]
  refine ⟨?_, ?_, ?_, ?_⟩
  · rw [PC1550.beep_krd, PC1550.snapshot_krd]
  · unfold PC1550.keyReleased
    dsimp only
    rw [PC1550.beep_krd, PC1550.snapshot_krd]
    dsimp only
    rw [if_neg hakd]
  · rw [PC1550.beep_bKP, PC1550.snapshot_bKP]
  · rw [PC1550.beep_iCKPC, PC1550.snapshot_iCKPC]

/-- Witness for C6 at the concrete release completion of `stateC6`. -/
theorem C6_release_event_witness :
    (stateC6.processClockCycle inputC6).key_released_data =
      (stateC6.preComplete inputC6).available_keypad_data ∧
    (stateC6.processClockCycle inputC6).keyReleased =
      PC1550.getKeyChar (stateC6.preComplete inputC6).available_keypad_data ∧
    (stateC6.processClockCycle inputC6).bKeyPressed = false ∧
    (stateC6.processClockCycle inputC6).iConsecutiveKeyPressCycles =
      (stateC6.preComplete inputC6).iConsecutiveKeyPressCycles :=
  C6_release_event stateC6 inputC6 (by decide) (by decide) (by decide) (by decide)

def runCycles (s : PC1550) : List ClockInputs → PC1550
  | [] => s
  | i :: rest => runCycles (s.processClockCycle i) rest

def riseInput (t : Nat) : ClockInputs := ⟨true, false, false, true, t, t⟩

def fallInput (t : Nat) : ClockInputs := ⟨false, false, false, true, t, t⟩

def frameInputs (t : Nat) : List ClockInputs :=
  [fallInput (t + 26000),
   riseInput (t + 26800), fallInput (t + 26800),
   riseInput (t + 28400), fallInput (t + 28400),
   riseInput (t + 30000), fallInput (t + 30000),
   riseInput (t + 31600), fallInput (t + 31600),
   riseInput (t + 33200), fallInput (t + 33200),
   riseInput (t + 34800), fallInput (t + 34800),
   riseInput (t + 36400), fallInput (t + 36400),
   riseInput (t + 38000), fallInput (t + 38000),
   riseInput (t + 39600), fallInput (t + 39600),
   riseInput (t + 41200), fallInput (t + 41200),
   riseInput (t + 42800), fallInput (t + 42800),
   riseInput (t + 44400), fallInput (t + 44400),
   riseInput (t + 46000), fallInput (t + 46000),
   riseInput (t + 47600), fallInput (t + 47600),
   riseInput (t + 49200), fallInput (t + 49200),
   riseInput (t + 50800), fallInput (t + 50800)]

def runFrame (s : PC1550) : PC1550 := runCycles s (frameInputs s.last_read)

def midState (key hold t cwk : Nat) : PC1550 where
  synchronized := false
  controller_bits_read := 0
  controller_data := 0
  available_controller_data := 0
  bStateChanged := false
  keypad_bits_read := 7
  keypad_data := 0
  available_keypad_data := 0
  pc16out_data := 0
  available_pc16out_data := 0
  key_released_data := 0
  bKeyPressed := false
  iConsecutiveKeyPressCycles := 0
  last_read := t
  last_clock := false
  cyclesWithoutKey := cwk
  transmitting := false
  keyHoldCycles := hold
  key_to_send := key
  keypad_bits_sent := 0
  iConsecutiveBeeps := 0
  bTransmissionEnd := false
  dataPinOutput := false

theorem elapsedMicros_self (x : Nat) : elapsedMicros x x = 0 := by
  unfold elapsedMicros
  simp only [show (2 : Nat) ^ 32 = 4294967296 from by norm_num]
  omega

theorem elapsed_gap (t : Nat) : elapsedMicros (t + 26000) t = 26000 := by
  unfold elapsedMicros
  simp only [show (2 : Nat) ^ 32 = 4294967296 from by norm_num]
  omega

/-- Template for every engine state occurring along an ideal frame replay:
only the pending key, hold count, timestamp, cycle counter, frame and keypad
positions, and the varying flags differ between those states. -/
def frameMid (K h tl cwk cbr kbr : Nat) (sy tr pin lb te : Bool) : PC1550 where
  synchronized := sy
  controller_bits_read := cbr
  controller_data := 0
  available_controller_data := 0
  bStateChanged := false
  keypad_bits_read := kbr
  keypad_data := 0
  available_keypad_data := 0
  pc16out_data := 0
  available_pc16out_data := 0
  key_released_data := 0
  bKeyPressed := false
  iConsecutiveKeyPressCycles := 0
  last_read := tl
  last_clock := lb
  cyclesWithoutKey := cwk
  transmitting := tr
  keyHoldCycles := h
  key_to_send := K
  keypad_bits_sent := 0
  iConsecutiveBeeps := 0
  bTransmissionEnd := te
  dataPinOutput := pin

theorem frameMid_lr (K h tl cwk cbr kbr : Nat) (sy tr pin lb te : Bool) :
    (frameMid K h tl cwk cbr kbr sy tr pin lb te).last_read = tl := rfl

/-- Idle-gap poll: resynchronize and reset the accumulators. -/
theorem frameMid_gap (K h t cwk kbr : Nat) (sy tr pin lb : Bool) :
    (frameMid K h t cwk 0 kbr sy tr pin lb false).processClockCycle
      (fallInput (t + 26000)) =
    frameMid K h t cwk 0 0 true tr pin false false := by
  simp [PC1550.processClockCycle, PC1550.preComplete, PC1550.resyncStep,
    PC1550.fallingEdgeStep, PC1550.risingEdgeStep, PC1550.storeBitsPhase,
    PC1550.keyArmPhase, PC1550.sanityPhase, PC1550.transmitPhase,
    PC1550.holdCountPhase, PC1550.frameCompleteStep, PC1550.classifyKeypadPhase,
    PC1550.snapshotPhase, PC1550.beepPhase, PC1550.Beep, frameMid,
    riseInput, fallInput, elapsedMicros_self, elapsed_gap, Nat.zero_shiftLeft]

/-- First rising edge of a synchronized frame with a key pending: enter
transmit mode, zero the without-key counter, drive bit 6 of the key code. -/
theorem frameMid_rise0 (K : Nat) (hK : K ≠ 0) (h u t cwk kbr : Nat) (pin : Bool) :
    (frameMid K h t cwk 0 kbr true false pin false false).processClockCycle
      (riseInput u) =
    frameMid K h u 0 1 kbr true true (decide ((K >>> 6) &&& 1 = 1)) true false := by
  simp [PC1550.processClockCycle, PC1550.preComplete, PC1550.resyncStep,
    PC1550.fallingEdgeStep, PC1550.risingEdgeStep, PC1550.storeBitsPhase,
    PC1550.keyArmPhase, PC1550.sanityPhase, PC1550.transmitPhase,
    PC1550.holdCountPhase, PC1550.frameCompleteStep, PC1550.classifyKeypadPhase,
    PC1550.snapshotPhase, PC1550.beepPhase, PC1550.Beep, frameMid,
    riseInput, fallInput, elapsedMicros_self, elapsed_gap, Nat.zero_shiftLeft, hK]

/-- Rising edge at positions 2..6 while transmitting: drive the next key bit. -/
theorem frameMid_riseActive (cbr : Nat) (hc1 : 1 ≤ cbr) (hc2 : cbr ≤ 5)
    (K h u tl cwk kbr : Nat) (pin : Bool) :
    (frameMid K h tl cwk cbr kbr true true pin false false).processClockCycle
      (riseInput u) =
    frameMid K h u cwk (cbr + 1) kbr true true
      (decide ((K >>> (7 - (cbr + 1))) &&& 1 = 1)) true false := by
  have hmod : (cbr + 1) % 256 = cbr + 1 := by omega
  have hne1 : ¬(cbr + 1 = 1) := by omega
  have hlt8 : ¬(cbr + 1 ≥ 8) := by omega
  have hne7 : ¬(cbr + 1 = 7) := by omega
  have hne16 : ¬(cbr + 1 = 16) := by omega
  simp [PC1550.processClockCycle, PC1550.preComplete, PC1550.resyncStep,
    PC1550.fallingEdgeStep, PC1550.risingEdgeStep, PC1550.storeBitsPhase,
    PC1550.keyArmPhase, PC1550.sanityPhase, PC1550.transmitPhase,
    PC1550.holdCountPhase, PC1550.frameCompleteStep, PC1550.classifyKeypadPhase,
    PC1550.snapshotPhase, PC1550.beepPhase, PC1550.Beep, frameMid,
    riseInput, fallInput, elapsedMicros_self, elapsed_gap, Nat.zero_shiftLeft, hmod, hne1, hlt8, hne7, hne16]

/-- Rising edge reaching position 7 while transmitting: drive bit 0,
decrement the hold counter, clear the key exactly when it reaches zero. -/
theorem frameMid_rise6 (h : Nat) (hh : 0 < h) (K u tl cwk kbr : Nat) (pin : Bool) :
    (frameMid K h tl cwk 6 kbr true true pin false false).processClockCycle
      (riseInput u) =
    frameMid (if h - 1 = 0 then 0 else K) (h - 1) u cwk 7 kbr true true
      (decide ((K >>> 0) &&& 1 = 1)) true false := by
  by_cases hz : h - 1 = 0
  · simp [PC1550.processClockCycle, PC1550.preComplete, PC1550.resyncStep,
    PC1550.fallingEdgeStep, PC1550.risingEdgeStep, PC1550.storeBitsPhase,
    PC1550.keyArmPhase, PC1550.sanityPhase, PC1550.transmitPhase,
    PC1550.holdCountPhase, PC1550.frameCompleteStep, PC1550.classifyKeypadPhase,
    PC1550.snapshotPhase, PC1550.beepPhase, PC1550.Beep, frameMid,
    riseInput, fallInput, elapsedMicros_self, elapsed_gap, Nat.zero_shiftLeft, hh, hz]
  · simp [PC1550.processClockCycle, PC1550.preComplete, PC1550.resyncStep,
    PC1550.fallingEdgeStep, PC1550.risingEdgeStep, PC1550.storeBitsPhase,
    PC1550.keyArmPhase, PC1550.sanityPhase, PC1550.transmitPhase,
    PC1550.holdCountPhase, PC1550.frameCompleteStep, PC1550.classifyKeypadPhase,
    PC1550.snapshotPhase, PC1550.beepPhase, PC1550.Beep, frameMid,
    riseInput, fallInput, elapsedMicros_self, elapsed_gap, Nat.zero_shiftLeft, hh, hz]

/-- Rising edge reaching position 8: transmit mode ends, pin floats. -/
theorem frameMid_rise7 (K h u tl cwk kbr : Nat) (pin : Bool) :
    (frameMid K h tl cwk 7 kbr true true pin false false).processClockCycle
      (riseInput u) =
    frameMid K h u cwk 8 kbr true false false true false := by
  simp [PC1550.processClockCycle, PC1550.preComplete, PC1550.resyncStep,
    PC1550.fallingEdgeStep, PC1550.risingEdgeStep, PC1550.storeBitsPhase,
    PC1550.keyArmPhase, PC1550.sanityPhase, PC1550.transmitPhase,
    PC1550.holdCountPhase, PC1550.frameCompleteStep, PC1550.classifyKeypadPhase,
    PC1550.snapshotPhase, PC1550.beepPhase, PC1550.Beep, frameMid,
    riseInput, fallInput, elapsedMicros_self, elapsed_gap, Nat.zero_shiftLeft]

/-- Rising edge at positions 9..15 with transmit mode off. -/
theorem frameMid_riseQuiet (cbr : Nat) (hc1 : 1 ≤ cbr) (hc2 : cbr ≤ 14)
    (K h u tl cwk kbr : Nat) (pin : Bool) :
    (frameMid K h tl cwk cbr kbr true false pin false false).processClockCycle
      (riseInput u) =
    frameMid K h u cwk (cbr + 1) kbr true false false true false := by
  have hmod : (cbr + 1) % 256 = cbr + 1 := by omega
  have hne1 : ¬(cbr + 1 = 1) := by omega
  have hne16 : ¬(cbr + 1 = 16) := by omega
  simp [PC1550.processClockCycle, PC1550.preComplete, PC1550.resyncStep,
    PC1550.fallingEdgeStep, PC1550.risingEdgeStep, PC1550.storeBitsPhase,
    PC1550.keyArmPhase, PC1550.sanityPhase, PC1550.transmitPhase,
    PC1550.holdCountPhase, PC1550.frameCompleteStep, PC1550.classifyKeypadPhase,
    PC1550.snapshotPhase, PC1550.beepPhase, PC1550.Beep, frameMid,
    riseInput, fallInput, elapsedMicros_self, elapsed_gap, Nat.zero_shiftLeft, hmod, hne1, hne16]

/-- Rising edge completing the 16th bit: publish the (all-zero) snapshots,
raise the frame-complete flag and drop synchronization. -/
theorem frameMid_rise15 (K h u tl cwk kbr : Nat) (pin : Bool) :
    (frameMid K h tl cwk 15 kbr true false pin false false).processClockCycle
      (riseInput u) =
    frameMid K h u cwk 0 kbr false false false true true := by
  simp [PC1550.processClockCycle, PC1550.preComplete, PC1550.resyncStep,
    PC1550.fallingEdgeStep, PC1550.risingEdgeStep, PC1550.storeBitsPhase,
    PC1550.keyArmPhase, PC1550.sanityPhase, PC1550.transmitPhase,
    PC1550.holdCountPhase, PC1550.frameCompleteStep, PC1550.classifyKeypadPhase,
    PC1550.snapshotPhase, PC1550.beepPhase, PC1550.Beep, frameMid,
    riseInput, fallInput, elapsedMicros_self, elapsed_gap, Nat.zero_shiftLeft]

/-- Falling edge inside the keypad window: sample a zero keypad bit. -/
theorem frameMid_fallIn (cbr : Nat) (hc1 : 0 < cbr) (hc2 : cbr < 8)
    (K h tl cwk kbr : Nat) (tr pin : Bool) :
    (frameMid K h tl cwk cbr kbr true tr pin true false).processClockCycle
      (fallInput tl) =
    frameMid K h tl cwk cbr ((kbr + 1) % 256) true tr pin false false := by
  have hne16 : ¬(cbr = 16) := by omega
  simp [PC1550.processClockCycle, PC1550.preComplete, PC1550.resyncStep,
    PC1550.fallingEdgeStep, PC1550.risingEdgeStep, PC1550.storeBitsPhase,
    PC1550.keyArmPhase, PC1550.sanityPhase, PC1550.transmitPhase,
    PC1550.holdCountPhase, PC1550.frameCompleteStep, PC1550.classifyKeypadPhase,
    PC1550.snapshotPhase, PC1550.beepPhase, PC1550.Beep, frameMid,
    riseInput, fallInput, elapsedMicros_self, elapsed_gap, Nat.zero_shiftLeft, hc1, hc2, hne16]

/-- Falling edge outside the keypad window: only the edge memory changes. -/
theorem frameMid_fallOut (cbr : Nat) (sy te : Bool) (hno : ¬(0 < cbr ∧ cbr < 8))
    (hns : ¬(sy = true ∧ cbr = 16)) (K h tl cwk kbr : Nat) (tr pin : Bool) :
    (frameMid K h tl cwk cbr kbr sy tr pin true te).processClockCycle
      (fallInput tl) =
    frameMid K h tl cwk cbr kbr sy tr pin false false := by
  simp [PC1550.processClockCycle, PC1550.preComplete, PC1550.resyncStep,
    PC1550.fallingEdgeStep, PC1550.risingEdgeStep, PC1550.storeBitsPhase,
    PC1550.keyArmPhase, PC1550.sanityPhase, PC1550.transmitPhase,
    PC1550.holdCountPhase, PC1550.frameCompleteStep, PC1550.classifyKeypadPhase,
    PC1550.snapshotPhase, PC1550.beepPhase, PC1550.Beep, frameMid,
    riseInput, fallInput, elapsedMicros_self, elapsed_gap, Nat.zero_shiftLeft, hno, hns]

/-- Replaying one ideal frame with a pending key: the hold counter drops by
one and the key is cleared exactly when it reaches zero. -/
theorem runFrame_active (K h t cwk kbr : Nat) (lb : Bool) (hK : K ≠ 0)
    (hh : 0 < h) :
    runFrame (frameMid K h t cwk 0 kbr false false false lb false) =
      midState (if h - 1 = 0 then 0 else K) (h - 1) (t + 50800) 0 := by
  unfold runFrame
  rw [frameMid_lr]
  simp only [frameInputs, runCycles]
  rw [frameMid_gap]
  rw [frameMid_rise0 K hK]
  rw [frameMid_fallIn 1 (by omega) (by omega)]
  rw [frameMid_riseActive 1 (by omega) (by omega)]
  rw [frameMid_fallIn 2 (by omega) (by omega)]
  rw [frameMid_riseActive 2 (by omega) (by omega)]
  rw [frameMid_fallIn 3 (by omega) (by omega)]
  rw [frameMid_riseActive 3 (by omega) (by omega)]
  rw [frameMid_fallIn 4 (by omega) (by omega)]
  rw [frameMid_riseActive 4 (by omega) (by omega)]
  rw [frameMid_fallIn 5 (by omega) (by omega)]
  rw [frameMid_riseActive 5 (by omega) (by omega)]
  rw [frameMid_fallIn 6 (by omega) (by omega)]
  rw [frameMid_rise6 h hh]
  rw [frameMid_fallIn 7 (by omega) (by omega)]
  rw [frameMid_rise7]
  rw [frameMid_fallOut 8 true false (by omega) (by simp)]
  rw [frameMid_riseQuiet 8 (by omega) (by omega)]
  rw [frameMid_fallOut 9 true false (by omega) (by simp)]
  rw [frameMid_riseQuiet 9 (by omega) (by omega)]
  rw [frameMid_fallOut 10 true false (by omega) (by simp)]
  rw [frameMid_riseQuiet 10 (by omega) (by omega)]
  rw [frameMid_fallOut 11 true false (by omega) (by simp)]
  rw [frameMid_riseQuiet 11 (by omega) (by omega)]
  rw [frameMid_fallOut 12 true false (by omega) (by simp)]
  rw [frameMid_riseQuiet 12 (by omega) (by omega)]
  rw [frameMid_fallOut 13 true false (by omega) (by simp)]
  rw [frameMid_riseQuiet 13 (by omega) (by omega)]
  rw [frameMid_fallOut 14 true false (by omega) (by simp)]
  rw [frameMid_riseQuiet 14 (by omega) (by omega)]
  rw [frameMid_fallOut 15 true false (by omega) (by simp)]
  rw [frameMid_rise15]
  rw [frameMid_fallOut 0 false true (by omega) (by simp)]
  simp [frameMid, midState]

theorem midState_key (k h t c : Nat) : (midState k h t c).key_to_send = k := rfl

theorem midState_hold (k h t c : Nat) : (midState k h t c).keyHoldCycles = h := rfl

theorem midState_lr (k h t c : Nat) : (midState k h t c).last_read = t := rfl

theorem runFrame_iter (k : Nat) : ∀ (K h t : Nat), K ≠ 0 → k ≤ h → 0 < h →
    runFrame^[k] (midState K h t 0) =
      midState (if k < h then K else 0) (h - k) (t + 50800 * k) 0 := by
  induction k with
  | zero =>
    intro K h t hK hkh hh
    rw [Function.iterate_zero_apply, if_pos (by omega)]
    simp [midState]
  | succ j ih =>
    intro K h t hK hkh hh
    rw [Function.iterate_succ_apply]
    rw [show midState K h t 0 =
      frameMid K h t 0 0 7 false false false false false from rfl]
    rw [runFrame_active K h t 0 7 false hK hh]
    by_cases hone : h = 1
    · subst hone
      have hj : j = 0 := by omega
      subst hj
      rw [Function.iterate_zero_apply]
      simp [midState]
    · rw [if_neg (show ¬(h - 1 = 0) from by omega)]
      rw [ih K (h - 1) (t + 50800) hK (by omega) (by omega)]
      rw [show h - 1 - j = h - (j + 1) from by omega]
      rw [show t + 50800 + 50800 * j = t + 50800 * (j + 1) from by ring]
      by_cases hlt : j + 1 < h
      · rw [if_pos (show j < h - 1 from by omega), if_pos hlt]
      · rw [if_neg (show ¬(j < h - 1) from by omega), if_neg hlt]

theorem PC1550.classify_hold (s : PC1550) :
    s.classifyKeypadPhase.keyHoldCycles = s.keyHoldCycles := by
  unfold PC1550.classifyKeypadPhase; split_ifs <;> rfl

theorem PC1550.snapshot_hold (s : PC1550) :
    s.snapshotPhase.keyHoldCycles = s.keyHoldCycles := rfl

theorem PC1550.beep_hold (s : PC1550) :
    s.beepPhase.keyHoldCycles = s.keyHoldCycles := by
  unfold PC1550.beepPhase; split_ifs <;> rfl

theorem PC1550.fc_hold (s : PC1550) :
    s.frameCompleteStep.keyHoldCycles = s.keyHoldCycles := by
  unfold PC1550.frameCompleteStep; (try dsimp only); split_ifs
  · rw [PC1550.beep_hold, PC1550.snapshot_hold, PC1550.classify_hold]
  · rfl

/-- Hold-cycle bookkeeping of a single poll reaching frame position 7 while
transmitting: the counter is decremented and the pending key code is cleared
exactly when the counter reaches zero. -/
theorem PC1550.pcc_hold_at7 (s : PC1550) (i : ClockInputs)
    (hc : i.clock = true) (hlc : s.last_clock = false)
    (hp7 : (s.controller_bits_read + 1) % 256 = 7)
    (htr : s.transmitting = true) (hkey : s.key_to_send ≠ 0)
    (hh : 0 < s.keyHoldCycles) :
    (s.processClockCycle i).keyHoldCycles = s.keyHoldCycles - 1 ∧
    ((s.processClockCycle i).key_to_send = 0 ↔ s.keyHoldCycles = 1) := by
  have hYcbr : ((({ s with bTransmissionEnd := false } : PC1550).storeBitsPhase
      i)).controller_bits_read = (s.controller_bits_read + 1) % 256 := rfl
  have hpre : s.preComplete i =
      (((({ s with bTransmissionEnd := false } : PC1550).storeBitsPhase
        i).keyArmPhase).sanityPhase).transmitPhase := by
    unfold PC1550.preComplete
    rw [PC1550.resync_id_clock_true _ _ hc, PC1550.falling_id_clock_true _ _ hc]
    unfold PC1550.risingEdgeStep
    rw [if_pos (show i.clock = true ∧
      ({ s with bTransmissionEnd := false } : PC1550).last_clock ≠ i.clock from
      ⟨hc, by rw [hc]; exact fun hcon => by rw [hlc] at hcon; simp at hcon⟩)]
  have hka : ((({ s with bTransmissionEnd := false } : PC1550).storeBitsPhase
      i)).keyArmPhase =
      (({ s with bTransmissionEnd := false } : PC1550).storeBitsPhase i) := by
    unfold PC1550.keyArmPhase
    rw [if_neg (fun hcon => by rw [hYcbr, hp7] at hcon; omega)]
  have hsa : ((({ s with bTransmissionEnd := false } : PC1550).storeBitsPhase
      i)).sanityPhase =
      (({ s with bTransmissionEnd := false } : PC1550).storeBitsPhase i) := by
    unfold PC1550.sanityPhase
    rw [if_neg (fun hcon => by rw [hYcbr, hp7] at hcon; omega)]
  have hGhold : (s.processClockCycle i).keyHoldCycles =
      ((s.preComplete i)).keyHoldCycles := by
    unfold PC1550.processClockCycle; dsimp only; rw [PC1550.fc_hold]
  have hGkey : (s.processClockCycle i).key_to_send =
      ((s.preComplete i)).key_to_send := by
    unfold PC1550.processClockCycle; dsimp only; rw [PC1550.fc_key]
  rw [hGhold, hGkey, hpre, hka, hsa]
  unfold PC1550.transmitPhase
  dsimp only
  rw [if_pos (show (({ s with bTransmissionEnd := false } : PC1550).storeBitsPhase
    i).transmitting = true from htr)]
  unfold PC1550.holdCountPhase
  dsimp only
  rw [if_pos (show ((({ s with bTransmissionEnd := false } : PC1550).storeBitsPhase
    i)).controller_bits_read = 7 from by rw [hYcbr, hp7])]
  rw [if_pos (show (0 : Nat) < (({ s with bTransmissionEnd := false } :
    PC1550).storeBitsPhase i).keyHoldCycles from hh)]
  dsimp only
  by_cases hh1 : s.keyHoldCycles - 1 = 0
  · rw [if_pos (show (({ s with bTransmissionEnd := false } : PC1550).storeBitsPhase
      i).keyHoldCycles - 1 = 0 from hh1)]
    refine ⟨rfl, ?_⟩
    constructor
    · intro hx
      omega
    · intro hx
      rfl
  · rw [if_neg (show ¬((({ s with bTransmissionEnd := false } : PC1550).storeBitsPhase
      i).keyHoldCycles - 1 = 0) from hh1)]
    refine ⟨rfl, ?_⟩
    constructor
    · intro hx; exact absurd hx hkey
    · intro hx; omega

/-- C5: a key request accepted while ready with hold count n > 0 persists
across exactly n completed synchronized frames; per frame, the poll that
reaches position 7 while transmitting decrements the hold counter and clears
the pending key exactly when the counter reaches zero. -/
theorem C5_key_hold_persistence :
    (∀ (s : PC1550) (i : ClockInputs),
      i.clock = true → s.last_clock = false →
      (s.controller_bits_read + 1) % 256 = 7 →
      s.transmitting = true → s.key_to_send ≠ 0 → 0 < s.keyHoldCycles →
      (s.processClockCycle i).keyHoldCycles = s.keyHoldCycles - 1 ∧
      ((s.processClockCycle i).key_to_send = 0 ↔ s.keyHoldCycles = 1)) ∧
    (∀ (c : Char) (n t0 : Nat),
      PC1550.getKeyValue c ≠ 0 → 0 < n → n < 256 →
      (({ PC1550.initState t0 with cyclesWithoutKey := 1 }).sendKey c n).2 = true ∧
      (∀ k, k ≤ n →
        (runFrame^[k]
          (({ PC1550.initState t0 with cyclesWithoutKey := 1 }).sendKey c n).1).key_to_send =
          (if k < n then PC1550.getKeyValue c else 0) ∧
        (runFrame^[k]
          (({ PC1550.initState t0 with cyclesWithoutKey := 1 }).sendKey c n).1).keyHoldCycles =
          n - k)) := by
  refine ⟨fun s i hc hlc hp7 htr hk hh =>
    PC1550.pcc_hold_at7 s i hc hlc hp7 htr hk hh, ?_⟩
  intro c n t0 hKv hn0 hn256
  have hready : ({ PC1550.initState t0 with cyclesWithoutKey := 1 } :
      PC1550).readyForKeyPress = true := by
    unfold PC1550.readyForKeyPress
    rw [if_neg (by simp [PC1550.initState])]
  have hacc : ({ PC1550.initState t0 with cyclesWithoutKey := 1 }).sendKey c n =
      (frameMid (PC1550.getKeyValue c) n t0 1 0 0 false false false true false, true) := by
    unfold PC1550.sendKey
    rw [hready]
    rw [if_neg (show ¬¬((true : Bool) = true) by decide)]
    dsimp only
    rw [if_neg hKv]
    rw [Nat.mod_eq_of_lt hn256]
    simp [PC1550.initState, frameMid]
  refine ⟨by rw [hacc], ?_⟩
  intro k hk
  rw [hacc]
  dsimp only
  cases k with
  | zero =>
    rw [Function.iterate_zero_apply]
    exact ⟨by rw [if_pos hn0]; rfl, rfl⟩
  | succ j =>
    rw [Function.iterate_succ_apply]
    rw [runFrame_active (PC1550.getKeyValue c) n t0 1 0 true hKv hn0]
    by_cases hone : n = 1
    · subst hone
      have hj : j = 0 := by omega
      subst hj
      simp [Function.iterate_zero_apply, midState]
    · rw [if_neg (show ¬(n - 1 = 0) from by omega)]
      rw [runFrame_iter j (PC1550.getKeyValue c) (n - 1) (t0 + 50800) hKv
        (by omega) (by omega)]
      constructor
      · simp only [midState_key]
        by_cases hlt : j + 1 < n
        · rw [if_pos (show j < n - 1 from by omega), if_pos hlt]
        · rw [if_neg (show ¬(j < n - 1) from by omega), if_neg hlt]
      · simp only [midState_hold]
        omega

/-- State used by the C5 witness part 1: position 6 about to reach 7 while
transmitting key `'5'` with two hold cycles left. -/
def stateC5 : PC1550 :=
  { PC1550.initState 0 with
    synchronized := true
    controller_bits_read := 6
    last_clock := false
    transmitting := true
    key_to_send := 34
    keyHoldCycles := 2 }

/-- Input used by the C5 witness: a rising clock edge. -/
def inputC5 : ClockInputs := ⟨true, false, false, true, 100, 100⟩

/-- Witness for C5: the hold counter decrement at position 7 on a concrete
state, and the request for key `'5'` with three hold cycles persisting
through exactly three ideal frames. -/
theorem C5_key_hold_persistence_witness :
    ((stateC5.processClockCycle inputC5).keyHoldCycles = stateC5.keyHoldCycles - 1 ∧
      ((stateC5.processClockCycle inputC5).key_to_send = 0 ↔ stateC5.keyHoldCycles = 1)) ∧
    ((({ PC1550.initState 0 with cyclesWithoutKey := 1 }).sendKey '5' 3).2 = true ∧
      ((runFrame^[2]
          (({ PC1550.initState 0 with cyclesWithoutKey := 1 }).sendKey '5' 3).1).key_to_send =
        (if 2 < 3 then PC1550.getKeyValue '5' else 0) ∧
       (runFrame^[2]
          (({ PC1550.initState 0 with cyclesWithoutKey := 1 }).sendKey '5' 3).1).keyHoldCycles =
        3 - 2) ∧
      ((runFrame^[3]
          (({ PC1550.initState 0 with cyclesWithoutKey := 1 }).sendKey '5' 3).1).key_to_send =
        (if 3 < 3 then PC1550.getKeyValue '5' else 0) ∧
       (runFrame^[3]
          (({ PC1550.initState 0 with cyclesWithoutKey := 1 }).sendKey '5' 3).1).keyHoldCycles =
        3 - 3)) :=
  ⟨C5_key_hold_persistence.1 stateC5 inputC5 rfl rfl (by decide) rfl (by decide)
      (by decide),
   (C5_key_hold_persistence.2 '5' 3 0 (by decide) (by decide) (by decide)).1,
   (C5_key_hold_persistence.2 '5' 3 0 (by decide) (by decide) (by decide)).2 2 (by decide),
   (C5_key_hold_persistence.2 '5' 3 0 (by decide) (by decide) (by decide)).2 3 (by decide)⟩
